import Mathlib

/-!
Shallow embedding of the plant-sampling repository
(src/plant_sampling/apps/sampling/{models,serializers,views}.py).

Modelling conventions:
* JSON payloads are modelled structurally.  A key that may be absent becomes an
  Option field; a key whose value must itself be a JSON object becomes a
  DictField (absent / present-but-not-an-object / object).
* Numbers inside payloads are modelled as exact rationals, matching the
  Decimal(str(x)) comparisons of the source; a present but non-numeric value
  (whose Decimal conversion raises ValueError or TypeError) is NumVal.invalid.
* Timestamps and dates are abstract Nat instants supplied by the caller
  (the "today" and "now" parameters stand for date.today and timezone.now).
* Django object managers become lists inside a Store record; an AutoField
  becomes an explicit next-id counter.
* transaction.atomic is modelled by runAtomic: the writes of a multi-step
  operation run sequentially on a draft store, an injected oracle decides
  whether a given write raises, and a raised write discards the whole draft
  (rollback), the view then answering with the original store and an error.
  The deployed behaviour is the oracle that never fails.
-/

/-- A JSON numeric field value: a decimal number (modelled exactly as a
rational, matching the Decimal comparisons of models.py) or a present but
non-numeric value whose Decimal conversion raises. -/
inductive NumVal where
  | val (q : ℚ)
  | invalid
deriving DecidableEq

/-- A JSON sub-object field: the key may be absent, present with a value that
is not a JSON object, or present with an object value. -/
inductive DictField (α : Type) where
  | absent
  | nonDict
  | dict (a : α)
deriving DecidableEq

/-- The sampling_date value inside sample_detail: a well-formed YYYY-MM-DD
date (as an abstract day number), the empty string (falsy in Python, so it
triggers the auto-fill in PlantSample.save), or a malformed string on which
strptime raises ValueError. -/
inductive DateVal where
  | valid (d : Nat)
  | emptyStr
  | malformed
deriving DecidableEq

/-- The coordinates sub-object of location_data (models.py SamplingLocation).
none is an absent key. -/
structure Coordinates where
  latitude : Option NumVal
  longitude : Option NumVal
deriving DecidableEq

/-- location_data payload of SamplingLocation: keys coordinates, region,
country (the Booleans record presence of the opaque region and country
values) and the optional site_type. -/
structure LocationData where
  coordinates : DictField Coordinates
  region : Bool
  country : Bool
  site_type : Option String
deriving DecidableEq

/-- soil_composition sub-object of condition_data: pH, nutrients (presence
only, the value is opaque), and the soil type key named type in JSON. -/
structure SoilComposition where
  pH : Option NumVal
  nutrients : Bool
  soilType : Option String
deriving DecidableEq

/-- condition_data payload of EnvironmentalConditions. -/
structure ConditionData where
  soil_composition : DictField SoilComposition
  temperature : Option NumVal
  humidity : Option NumVal
  altitude : Option NumVal
deriving DecidableEq

/-- sample_detail payload of PlantSample: species, common_name,
sampling_date.  none is an absent key. -/
structure SampleDetail where
  species : Option String
  common_name : Option String
  sampling_date : Option DateVal
deriving DecidableEq

/-- SITE_TYPE_CHOICES of models.SamplingLocation. -/
def SITE_TYPE_CHOICES : List String :=
  ["forest", "grassland", "wetland", "desert", "agricultural", "urban",
   "coastal", "mountain"]

/-- SOIL_TYPE_CHOICES of models.EnvironmentalConditions. -/
def SOIL_TYPE_CHOICES : List String :=
  ["clay", "sandy", "loamy", "silty", "peaty", "chalky", "saline"]

/-- ROLE_CHOICES of models.SampleResearchers. -/
def ROLE_CHOICES : List String :=
  ["lead_researcher", "assistant_researcher", "field_technician",
   "data_analyst", "supervisor"]

/-- HEALTH_STATUS_CHOICES of models.GrowthMetrics. -/
def HEALTH_STATUS_CHOICES : List String :=
  ["excellent", "good", "fair", "poor", "critical"]

/-- Stored SamplingLocation row. -/
structure SamplingLocation where
  location_id : Nat
  location_data : LocationData
  created_at : Nat
deriving DecidableEq

/-- Stored EnvironmentalConditions row. -/
structure EnvironmentalConditions where
  condition_id : Nat
  condition_data : ConditionData
  recorded_at : Nat
deriving DecidableEq

/-- Stored ResearcherInfo row (the fields the claims touch). -/
structure ResearcherInfo where
  researcher_id : Nat
  name : String
  email : String
deriving DecidableEq

/-- Stored PlantSample row. -/
structure PlantSample where
  sample_id : Nat
  sample_detail : SampleDetail
  location_id : Nat
  condition_id : Nat
  is_deleted : Bool
  deleted_at : Option Nat
  created_at : Nat
  updated_at : Nat
deriving DecidableEq

/-- Stored SampleResearchers junction row. -/
structure SampleResearchers where
  id : Nat
  sample_id : Nat
  researcher_id : Nat
  role : Option String
  assigned_at : Nat
deriving DecidableEq

/-- Stored GrowthMetrics row. -/
structure GrowthMetrics where
  growth_id : Nat
  sample_id : Nat
  height : Option ℚ
  leaf_count : Option Int
  stem_diameter : Option ℚ
  health_status : Option String
  measured_at : Nat
deriving DecidableEq

/-- Structured details column of a SampleAuditLog row, one constructor per
action written by views.py. -/
inductive AuditDetails where
  | createdD (species : Option String) (location_id : Nat)
  | updatedD (old_detail new_detail : SampleDetail)
  | deletedD (species : String)
  | hardDeletedD (species : String)
  | growthAddedD (growth_id : Nat) (height : Option ℚ) (leaf_count : Option Int)
      (stem_diameter : Option ℚ) (health_status : Option String)
deriving DecidableEq

/-- Stored SampleAuditLog row; sample_id is a plain integer column with no
live foreign key, so it survives hard deletion of the sample. -/
structure SampleAuditLog where
  log_id : Nat
  sample_id : Nat
  action : String
  performed_at : Nat
  details : AuditDetails
deriving DecidableEq

/-- The whole backing store: one list per table plus the AutoField counters. -/
structure Store where
  locations : List SamplingLocation
  conditions : List EnvironmentalConditions
  researchers : List ResearcherInfo
  samples : List PlantSample
  sample_researchers : List SampleResearchers
  growth_metrics : List GrowthMetrics
  audit_log : List SampleAuditLog
  next_sample_id : Nat
  next_link_id : Nat
  next_growth_id : Nat
  next_log_id : Nat
deriving DecidableEq

instance {ε α : Type} [DecidableEq ε] [DecidableEq α] :
    DecidableEq (Except ε α) := fun a b =>
  match a, b with
  | Except.error e, Except.error f =>
    if h : e = f then isTrue (by rw [h]) else isFalse (fun c => h (Except.error.inj c))
  | Except.ok x, Except.ok y =>
    if h : x = y then isTrue (by rw [h]) else isFalse (fun c => h (Except.ok.inj c))
  | Except.error _, Except.ok _ => isFalse (fun c => Except.noConfusion c)
  | Except.ok _, Except.error _ => isFalse (fun c => Except.noConfusion c)

/-- SamplingLocation.clean (models.py lines 36-75): required keys
coordinates, region, country, then the coordinates object shape, latitude
and longitude ranges with Decimal comparison, and the optional site_type
enum. -/
def SamplingLocation.clean (ld : LocationData) : Except String Unit :=
  if ld.coordinates = DictField.absent then
    Except.error "location_data must contain coordinates"
  else if !ld.region then
    Except.error "location_data must contain region"
  else if !ld.country then
    Except.error "location_data must contain country"
  else
    match ld.coordinates with
    | DictField.absent => Except.error "location_data must contain coordinates"
    | DictField.nonDict => Except.error "coordinates must be a JSON object"
    | DictField.dict coords =>
      match coords.latitude, coords.longitude with
      | none, _ =>
        Except.error "coordinates must contain latitude and longitude"
      | _, none =>
        Except.error "coordinates must contain latitude and longitude"
      | some NumVal.invalid, some _ => Except.error "Invalid latitude value"
      | some (NumVal.val lat), some lonv =>
        if ¬(-90 ≤ lat ∧ lat ≤ 90) then
          Except.error "Latitude must be between -90 and 90"
        else
          match lonv with
          | NumVal.invalid => Except.error "Invalid longitude value"
          | NumVal.val lon =>
            if ¬(-180 ≤ lon ∧ lon ≤ 180) then
              Except.error "Longitude must be between -180 and 180"
            else
              match ld.site_type with
              | none => Except.ok ()
              | some t =>
                if t ∈ SITE_TYPE_CHOICES then Except.ok ()
                else Except.error "Invalid site_type"

/-- EnvironmentalConditions.clean (models.py lines 114-170): required keys
soil_composition, temperature, humidity, altitude, then the soil object
shape and its required keys pH, nutrients, type, then the pH, temperature,
humidity and altitude ranges with Decimal comparison, and last the soil type
enum. -/
def EnvironmentalConditions.clean (cd : ConditionData) : Except String Unit :=
  if cd.soil_composition = DictField.absent then
    Except.error "condition_data must contain soil_composition"
  else if cd.temperature = none then
    Except.error "condition_data must contain temperature"
  else if cd.humidity = none then
    Except.error "condition_data must contain humidity"
  else if cd.altitude = none then
    Except.error "condition_data must contain altitude"
  else
    match cd.soil_composition with
    | DictField.absent =>
      Except.error "condition_data must contain soil_composition"
    | DictField.nonDict => Except.error "soil_composition must be a JSON object"
    | DictField.dict soil =>
      if soil.pH = none then Except.error "soil_composition must contain pH"
      else if !soil.nutrients then
        Except.error "soil_composition must contain nutrients"
      else if soil.soilType = none then
        Except.error "soil_composition must contain type"
      else
        match soil.pH with
        | none => Except.error "soil_composition must contain pH"
        | some NumVal.invalid => Except.error "Invalid pH value"
        | some (NumVal.val ph) =>
          if ¬(0 ≤ ph ∧ ph ≤ 14) then
            Except.error "pH must be between 0 and 14"
          else
            match cd.temperature with
            | none => Except.error "condition_data must contain temperature"
            | some NumVal.invalid => Except.error "Invalid temperature value"
            | some (NumVal.val temp) =>
              if ¬(-50 ≤ temp ∧ temp ≤ 60) then
                Except.error "Temperature must be between -50 and 60 C"
              else
                match cd.humidity with
                | none => Except.error "condition_data must contain humidity"
                | some NumVal.invalid => Except.error "Invalid humidity value"
                | some (NumVal.val hum) =>
                  if ¬(0 ≤ hum ∧ hum ≤ 100) then
                    Except.error "Humidity must be between 0 and 100 percent"
                  else
                    match cd.altitude with
                    | none =>
                      Except.error "condition_data must contain altitude"
                    | some NumVal.invalid =>
                      Except.error "Invalid altitude value"
                    | some (NumVal.val alt) =>
                      if ¬(-500 ≤ alt ∧ alt ≤ 9000) then
                        Except.error "Altitude must be between -500 and 9000 meters"
                      else
                        match soil.soilType with
                        | none =>
                          Except.error "soil_composition must contain type"
                        | some t =>
                          if t ∈ SOIL_TYPE_CHOICES then Except.ok ()
                          else Except.error "Invalid soil type"

/-- Pythonic blank test used by the species check of PlantSample.clean and the
name check of ResearcherInfo.clean: not value or not str(value).strip() is
true exactly when the string is empty or all whitespace. -/
def pyBlank (s : String) : Bool := s.data.all Char.isWhitespace

/-- PlantSample.clean (models.py lines 247-271): required keys sampling_date,
species, common_name, non-blank species, and a well-formed sampling_date that
is not after today. -/
def PlantSample.clean (today : Nat) (d : SampleDetail) : Except String Unit :=
  if d.sampling_date = none then
    Except.error "sample_detail must contain sampling_date"
  else if d.species = none then
    Except.error "sample_detail must contain species"
  else if d.common_name = none then
    Except.error "sample_detail must contain common_name"
  else
    match d.species with
    | none => Except.error "sample_detail must contain species"
    | some sp =>
      if pyBlank sp then Except.error "Species name cannot be empty"
      else
        match d.sampling_date with
        | none => Except.error "sample_detail must contain sampling_date"
        | some (DateVal.valid dt) =>
          if today < dt then
            Except.error "Sampling date cannot be in the future"
          else Except.ok ()
        | some DateVal.emptyStr =>
          Except.error "Invalid sampling_date format. Use YYYY-MM-DD"
        | some DateVal.malformed =>
          Except.error "Invalid sampling_date format. Use YYYY-MM-DD"

/-- PlantSample.save (models.py lines 273-279): auto-fill sampling_date with
today when the key is absent or its value is falsy (the empty string), then
full_clean; returns the stored detail. -/
def PlantSample.save (today : Nat) (d : SampleDetail) :
    Except String SampleDetail :=
  let d' :=
    if d.sampling_date = none ∨ d.sampling_date = some DateVal.emptyStr then
      { d with sampling_date := some (DateVal.valid today) }
    else d
  (PlantSample.clean today d').map (fun _ => d')

/-- GrowthMetrics.clean (models.py lines 406-419): when both the sample link
and measured_at are set, the measured date must not precede the parent
sampling_date.  measured_at is an auto_now_add column, still unset when
full_clean runs inside save, so the creation path calls this with none. -/
def GrowthMetrics.clean (samples : List PlantSample) (sid : Nat)
    (measured_at : Option Nat) : Except String Unit :=
  match measured_at with
  | none => Except.ok ()
  | some t =>
    match samples.find? (fun s => s.sample_id == sid) with
    | none => Except.ok ()
    | some s =>
      match s.sample_detail.sampling_date with
      | some (DateVal.valid dt) =>
        if t < dt then
          Except.error "Growth metric date cannot be before sample collection date"
        else Except.ok ()
      | _ => Except.ok ()

example :
    SamplingLocation.clean
      { coordinates := DictField.dict
          { latitude := some (NumVal.val 90), longitude := some (NumVal.val (-180)) },
        region := true, country := true, site_type := some "forest" } =
      Except.ok () := by decide

example :
    SamplingLocation.clean
      { coordinates := DictField.dict
          { latitude := some (NumVal.val 91), longitude := some (NumVal.val 0) },
        region := true, country := true, site_type := none } =
      Except.error "Latitude must be between -90 and 90" := by decide

example :
    EnvironmentalConditions.clean
      { soil_composition := DictField.dict
          { pH := some (NumVal.val 14), nutrients := true, soilType := some "clay" },
        temperature := some (NumVal.val 0), humidity := some (NumVal.val 50),
        altitude := some (NumVal.val 100) } = Except.ok () := by decide

example :
    PlantSample.save 100
      { species := some "Quercus robur", common_name := some "English Oak",
        sampling_date := none } =
      Except.ok
        { species := some "Quercus robur", common_name := some "English Oak",
          sampling_date := some (DateVal.valid 100) } := by decide

/-- PlantSampleCreateSerializer.validate_sample_detail (serializers.py lines
228-238): the request payload must contain sampling_date, species and
common_name; the value of sampling_date is not inspected here. -/
def PlantSampleCreateSerializer.validate_sample_detail (d : SampleDetail) :
    Except String SampleDetail :=
  if d.sampling_date = none then
    Except.error "sample_detail must contain sampling_date"
  else if d.species = none then
    Except.error "sample_detail must contain species"
  else if d.common_name = none then
    Except.error "sample_detail must contain common_name"
  else Except.ok d

/-- PlantSampleUpdateSerializer.validate_sample_detail (serializers.py lines
248-258): same required-key check as the create serializer, applied to any
sample_detail supplied to a full or partial update. -/
def PlantSampleUpdateSerializer.validate_sample_detail (d : SampleDetail) :
    Except String SampleDetail :=
  if d.sampling_date = none then
    Except.error "sample_detail must contain sampling_date"
  else if d.species = none then
    Except.error "sample_detail must contain species"
  else if d.common_name = none then
    Except.error "sample_detail must contain common_name"
  else Except.ok d

/-- Error kinds surfaced by the views: 404 from get_object_or_404, serializer
or model ValidationError, the deleted-sample update rejection, the database
RestrictedError on a restricted foreign key, and a transaction failure. -/
inductive ApiErr where
  | notFound
  | validationErr (msg : String)
  | invalidState
  | restricted
  | storageErr
deriving DecidableEq

def Store.findSample (st : Store) (sid : Nat) : Option PlantSample :=
  st.samples.find? (fun s => s.sample_id == sid)

def Store.findLocation (st : Store) (lid : Nat) : Option SamplingLocation :=
  st.locations.find? (fun l => l.location_id == lid)

def Store.findCondition (st : Store) (cid : Nat) : Option EnvironmentalConditions :=
  st.conditions.find? (fun c => c.condition_id == cid)

def Store.findResearcher (st : Store) (rid : Nat) : Option ResearcherInfo :=
  st.researchers.find? (fun r => r.researcher_id == rid)

/-- One primitive write of a multi-step operation. -/
abbrev Step := Store → Store

/-- Effect of a transaction that commits: all writes applied in order. -/
def applySteps (steps : List Step) (st : Store) : Store :=
  steps.foldl (fun s f => f s) st

def runAtomicAux (oracle : Nat → Bool) : List Step → Nat → Store → Option Store
  | [], _, st => some st
  | f :: fs, i, st => if oracle i then none else runAtomicAux oracle fs (i + 1) (f st)

/-- transaction.atomic: run the writes in order on a draft store; the oracle
says whether the i-th write raises, and a raise rolls the whole draft back
(the caller then keeps the original store). -/
def runAtomic (oracle : Nat → Bool) (steps : List Step) (st : Store) : Option Store :=
  runAtomicAux oracle steps 0 st

/-- The deployed failure oracle: no write ever raises. -/
def noFail : Nat → Bool := fun _ => false

def insertSampleStep (s : PlantSample) : Step := fun st =>
  { st with samples := st.samples ++ [s], next_sample_id := st.next_sample_id + 1 }

def insertAuditStep (sid : Nat) (action : String) (now : Nat)
    (d : AuditDetails) : Step := fun st =>
  { st with
    audit_log := st.audit_log ++
      [{ log_id := st.next_log_id, sample_id := sid, action := action,
         performed_at := now, details := d }],
    next_log_id := st.next_log_id + 1 }

def updateSampleStep (sid : Nat) (s' : PlantSample) : Step := fun st =>
  { st with samples := st.samples.map (fun s => if s.sample_id == sid then s' else s) }

def removeMetricsStep (sid : Nat) : Step := fun st =>
  { st with growth_metrics := st.growth_metrics.filter (fun m => m.sample_id != sid) }

def removeLinksStep (sid : Nat) : Step := fun st =>
  { st with sample_researchers :=
      st.sample_researchers.filter (fun l => l.sample_id != sid) }

def removeSampleStep (sid : Nat) : Step := fun st =>
  { st with samples := st.samples.filter (fun s => s.sample_id != sid) }

def insertMetricStep (m : GrowthMetrics) : Step := fun st =>
  { st with growth_metrics := st.growth_metrics ++ [m],
            next_growth_id := st.next_growth_id + 1 }

/-- Linked-researcher entry of the detail projection (serializers.py
get_researchers). -/
structure ResearcherProjection where
  researcher_id : Nat
  name : String
  email : String
  role : Option String
deriving DecidableEq

/-- PlantSampleDetailSerializer output: full payload, embedded related rows,
and the computed status field. -/
structure DetailProjection where
  sample_id : Nat
  sample_detail : SampleDetail
  location : Nat
  condition : Nat
  researchers : List ResearcherProjection
  growth_measurements : List GrowthMetrics
  status : String
  created_at : Nat
  updated_at : Nat
deriving DecidableEq

/-- PlantSampleDetailSerializer (serializers.py lines 144-205). -/
def PlantSampleDetailSerializer.serialize (st : Store) (s : PlantSample) :
    DetailProjection :=
  { sample_id := s.sample_id, sample_detail := s.sample_detail,
    location := s.location_id, condition := s.condition_id,
    researchers :=
      (st.sample_researchers.filter (fun l => l.sample_id == s.sample_id)).filterMap
        (fun l => (st.findResearcher l.researcher_id).map
          (fun r => { researcher_id := r.researcher_id, name := r.name,
                      email := r.email, role := l.role })),
    growth_measurements :=
      st.growth_metrics.filter (fun m => m.sample_id == s.sample_id),
    status := if s.is_deleted then "deleted" else "active",
    created_at := s.created_at, updated_at := s.updated_at }

/-- Basic listing projection of PlantSampleListSerializer: id, species,
common name, sampling date and the two timestamps only. -/
structure SampleListItem where
  sample_id : Nat
  species : String
  common_name : String
  sampling_date : Option DateVal
  created_at : Nat
  updated_at : Nat
deriving DecidableEq

/-- PlantSampleListSerializer (serializers.py lines 123-141); the absent-key
defaults are the empty string in the source. -/
def PlantSampleListSerializer.serialize (s : PlantSample) : SampleListItem :=
  { sample_id := s.sample_id,
    species := s.sample_detail.species.getD "",
    common_name := s.sample_detail.common_name.getD "",
    sampling_date := s.sample_detail.sampling_date,
    created_at := s.created_at, updated_at := s.updated_at }

/-- Ordering used by order_by on minus created_at: a comes before b when its
creation time is at least that of b. -/
def newerSample (a b : PlantSample) : Prop := b.created_at ≤ a.created_at

instance : DecidableRel newerSample := fun a b => Nat.decLe b.created_at a.created_at

instance : IsTotal PlantSample newerSample :=
  ⟨fun a b => Nat.le_total b.created_at a.created_at⟩

instance : IsTrans PlantSample newerSample :=
  ⟨fun _ _ _ hab hbc => le_trans hbc hab⟩

def newerMetric (a b : GrowthMetrics) : Prop := b.measured_at ≤ a.measured_at

instance : DecidableRel newerMetric := fun a b => Nat.decLe b.measured_at a.measured_at

instance : IsTotal GrowthMetrics newerMetric :=
  ⟨fun a b => Nat.le_total b.measured_at a.measured_at⟩

instance : IsTrans GrowthMetrics newerMetric :=
  ⟨fun _ _ _ hab hbc => le_trans hbc hab⟩

def newerAudit (a b : SampleAuditLog) : Prop := b.performed_at ≤ a.performed_at

instance : DecidableRel newerAudit := fun a b => Nat.decLe b.performed_at a.performed_at

instance : IsTotal SampleAuditLog newerAudit :=
  ⟨fun a b => Nat.le_total b.performed_at a.performed_at⟩

instance : IsTrans SampleAuditLog newerAudit :=
  ⟨fun _ _ _ hab hbc => le_trans hbc hab⟩

/-- PlantSampleListView (views.py lines 135-140): non-deleted samples only,
newest first by created_at, basic projection. -/
def PlantSampleListView.get (st : Store) : List SampleListItem :=
  (List.insertionSort newerSample
    (st.samples.filter (fun s => !s.is_deleted))).map
      PlantSampleListSerializer.serialize

/-- GrowthMetricsBySampleView (views.py lines 453-461). -/
def GrowthMetricsBySampleView.get (st : Store) (sid : Nat) : List GrowthMetrics :=
  List.insertionSort newerMetric
    (st.growth_metrics.filter (fun m => m.sample_id == sid))

/-- SampleAuditLogBySampleView (views.py lines 521-529). -/
def SampleAuditLogBySampleView.get (st : Store) (sid : Nat) : List SampleAuditLog :=
  List.insertionSort newerAudit
    (st.audit_log.filter (fun e => e.sample_id == sid))

/-- Request body of the sample create endpoint. -/
structure CreateReq where
  sample_detail : SampleDetail
  location : Nat
  condition : Nat
deriving DecidableEq

/-- Request body of a PATCH to the sample update endpoint: with partial set,
any of the three top-level serializer fields may be absent, and an absent
field is left untouched on the instance. -/
structure PatchReq where
  sample_detail : Option SampleDetail
  location : Option Nat
  condition : Option Nat
deriving DecidableEq

/-- serializer.is_valid for the create endpoint: the sample_detail key check
plus PrimaryKeyRelatedField existence of the referenced location and
condition. -/
def validateCreateReq (st : Store) (r : CreateReq) : Except String Unit :=
  match PlantSampleCreateSerializer.validate_sample_detail r.sample_detail with
  | Except.error m => Except.error m
  | Except.ok _ =>
    if (st.findLocation r.location).isNone then
      Except.error "Invalid pk for location"
    else if (st.findCondition r.condition).isNone then
      Except.error "Invalid pk for condition"
    else Except.ok ()

/-- PlantSampleCreateView.post (views.py lines 143-179), instrumented with a
write-failure oracle for the atomic block.  The CREATED audit entry snapshots
species and location id. -/
def PlantSampleCreateView.postI (oracle : Nat → Bool) (today now : Nat)
    (st : Store) (r : CreateReq) : Store × Except ApiErr DetailProjection :=
  match validateCreateReq st r with
  | Except.error m => (st, Except.error (ApiErr.validationErr m))
  | Except.ok () =>
    match PlantSample.save today r.sample_detail with
    | Except.error m => (st, Except.error (ApiErr.validationErr m))
    | Except.ok detail =>
      let s : PlantSample :=
        { sample_id := st.next_sample_id, sample_detail := detail,
          location_id := r.location, condition_id := r.condition,
          is_deleted := false, deleted_at := none,
          created_at := now, updated_at := now }
      let steps := [insertSampleStep s,
        insertAuditStep s.sample_id "CREATED" now
          (AuditDetails.createdD detail.species r.location)]
      match runAtomic oracle steps st with
      | some st' => (st', Except.ok (PlantSampleDetailSerializer.serialize st' s))
      | none => (st, Except.error ApiErr.storageErr)

def PlantSampleCreateView.post (today now : Nat) (st : Store) (r : CreateReq) :
    Store × Except ApiErr DetailProjection :=
  PlantSampleCreateView.postI noFail today now st r

/-- Response of a GET on one sample: the reduced deleted marker or the full
detail projection. -/
inductive GetResp where
  | deletedMarker (message : String) (sample_id : Nat) (status : String)
  | detail (d : DetailProjection)
deriving DecidableEq

/-- PlantSampleDetailView.get (views.py lines 189-204). -/
def PlantSampleDetailView.get (st : Store) (sid : Nat) : Except ApiErr GetResp :=
  match st.findSample sid with
  | none => Except.error ApiErr.notFound
  | some s =>
    if s.is_deleted then
      Except.ok (GetResp.deletedMarker "Sample deleted" sid "deleted")
    else
      Except.ok (GetResp.detail (PlantSampleDetailSerializer.serialize st s))

/-- Response of the soft-delete endpoint. -/
inductive SoftDeleteResp where
  | alreadyDeleted (message : String) (sample_id : Nat) (status : String)
  | softDeleted (sample_id : Nat) (species : String) (status : String)
deriving DecidableEq

/-- PlantSampleDetailView.delete (views.py lines 206-248), instrumented: an
already-deleted sample answers with the already-deleted signal and no writes;
otherwise the DELETED audit entry is written and then the sample is
soft-deleted (is_deleted, deleted_at, save), atomically.  The model ValidationError
that sample.save could raise inside the block is hoisted before the writes;
with rollback the observable outcome (original store, 400) is the same. -/
def PlantSampleDetailView.deleteI (oracle : Nat → Bool) (today now : Nat)
    (st : Store) (sid : Nat) : Store × Except ApiErr SoftDeleteResp :=
  match st.findSample sid with
  | none => (st, Except.error ApiErr.notFound)
  | some s =>
    if s.is_deleted then
      (st, Except.ok (SoftDeleteResp.alreadyDeleted "Sample already deleted" sid "deleted"))
    else
      let species := s.sample_detail.species.getD "Unknown"
      match PlantSample.save today s.sample_detail with
      | Except.error m => (st, Except.error (ApiErr.validationErr m))
      | Except.ok detail =>
        let s' := { s with
                    sample_detail := detail, is_deleted := true,
                    deleted_at := some now, updated_at := now }
        let steps := [insertAuditStep sid "DELETED" now (AuditDetails.deletedD species),
                      updateSampleStep sid s']
        match runAtomic oracle steps st with
        | some st' => (st', Except.ok (SoftDeleteResp.softDeleted sid species "deleted"))
        | none => (st, Except.error ApiErr.storageErr)

def PlantSampleDetailView.softDelete (today now : Nat) (st : Store) (sid : Nat) :
    Store × Except ApiErr SoftDeleteResp :=
  PlantSampleDetailView.deleteI noFail today now st sid

def validatePatchDetail (r : PatchReq) : Except String Unit :=
  match r.sample_detail with
  | none => Except.ok ()
  | some d => (PlantSampleUpdateSerializer.validate_sample_detail d).map (fun _ => ())

def validatePatchFks (st : Store) (r : PatchReq) : Except String Unit :=
  match r.location with
  | some lid =>
    if (st.findLocation lid).isNone then Except.error "Invalid pk for location"
    else
      match r.condition with
      | some cid =>
        if (st.findCondition cid).isNone then Except.error "Invalid pk for condition"
        else Except.ok ()
      | none => Except.ok ()
  | none =>
    match r.condition with
    | some cid =>
      if (st.findCondition cid).isNone then Except.error "Invalid pk for condition"
      else Except.ok ()
    | none => Except.ok ()

/-- PlantSampleUpdateView.patch (views.py lines 298-337), instrumented.  A
supplied sample_detail replaces the stored payload wholesale after the
serializer required-key check and model save validation; absent top-level
fields keep their prior value (DRF partial update).  The UPDATED audit entry
snapshots the pre-update and post-update payloads. -/
def PlantSampleUpdateView.patchI (oracle : Nat → Bool) (today now : Nat)
    (st : Store) (sid : Nat) (r : PatchReq) : Store × Except ApiErr DetailProjection :=
  match st.findSample sid with
  | none => (st, Except.error ApiErr.notFound)
  | some s =>
    if s.is_deleted then (st, Except.error ApiErr.invalidState)
    else
      match validatePatchDetail r with
      | Except.error m => (st, Except.error (ApiErr.validationErr m))
      | Except.ok () =>
        match validatePatchFks st r with
        | Except.error m => (st, Except.error (ApiErr.validationErr m))
        | Except.ok () =>
          match PlantSample.save today (r.sample_detail.getD s.sample_detail) with
          | Except.error m => (st, Except.error (ApiErr.validationErr m))
          | Except.ok detail =>
            let old_detail := s.sample_detail
            let s' := { s with
                        sample_detail := detail,
                        location_id := r.location.getD s.location_id,
                        condition_id := r.condition.getD s.condition_id,
                        updated_at := now }
            let steps := [updateSampleStep sid s',
              insertAuditStep sid "UPDATED" now
                (AuditDetails.updatedD old_detail detail)]
            match runAtomic oracle steps st with
            | some st' =>
              (st', Except.ok (PlantSampleDetailSerializer.serialize st' s'))
            | none => (st, Except.error ApiErr.storageErr)

def PlantSampleUpdateView.patch (today now : Nat) (st : Store) (sid : Nat)
    (r : PatchReq) : Store × Except ApiErr DetailProjection :=
  PlantSampleUpdateView.patchI noFail today now st sid r

/-- Writes of the hard-delete transaction, in source order (views.py lines
346-382 and models.py hard_delete lines 287-294): the HARD_DELETED audit
entry first, then the growth metrics, then the researcher links, then the
sample row. -/
def hardDeleteSteps (sid : Nat) (species : String) (now : Nat) : List Step :=
  [insertAuditStep sid "HARD_DELETED" now (AuditDetails.hardDeletedD species),
   removeMetricsStep sid, removeLinksStep sid, removeSampleStep sid]

/-- Response of the hard-delete endpoint. -/
structure HardDeleteResp where
  sample_id : Nat
  species : String
deriving DecidableEq

/-- PlantSampleHardDeleteView.delete (views.py lines 340-382), instrumented;
available in any lifecycle state of an existing sample. -/
def PlantSampleHardDeleteView.deleteI (oracle : Nat → Bool) (now : Nat)
    (st : Store) (sid : Nat) : Store × Except ApiErr HardDeleteResp :=
  match st.findSample sid with
  | none => (st, Except.error ApiErr.notFound)
  | some s =>
    let species := s.sample_detail.species.getD "Unknown"
    match runAtomic oracle (hardDeleteSteps sid species now) st with
    | some st' => (st', Except.ok { sample_id := sid, species := species })
    | none => (st, Except.error ApiErr.storageErr)

def PlantSampleHardDeleteView.hardDelete (now : Nat) (st : Store) (sid : Nat) :
    Store × Except ApiErr HardDeleteResp :=
  PlantSampleHardDeleteView.deleteI noFail now st sid

/-- SamplingLocationDetailView DELETE (views.py lines 78-87): the generic
destroy calls instance.delete, and the RESTRICT foreign key of PlantSample
raises RestrictedError while any sample row, soft-deleted or not, still
references the location. -/
def SamplingLocationDetailView.delete (st : Store) (lid : Nat) :
    Store × Except ApiErr Unit :=
  match st.findLocation lid with
  | none => (st, Except.error ApiErr.notFound)
  | some _ =>
    if st.samples.any (fun s => s.location_id == lid) then
      (st, Except.error ApiErr.restricted)
    else
      ({ st with locations := st.locations.filter (fun l => l.location_id != lid) },
       Except.ok ())

/-- EnvironmentalConditionsDetailView DELETE (views.py lines 100-108), same
RESTRICT rule through the condition foreign key. -/
def EnvironmentalConditionsDetailView.delete (st : Store) (cid : Nat) :
    Store × Except ApiErr Unit :=
  match st.findCondition cid with
  | none => (st, Except.error ApiErr.notFound)
  | some _ =>
    if st.samples.any (fun s => s.condition_id == cid) then
      (st, Except.error ApiErr.restricted)
    else
      ({ st with conditions := st.conditions.filter (fun c => c.condition_id != cid) },
       Except.ok ())

/-- Request body of the link creation endpoint. -/
structure LinkReq where
  sample : Nat
  researcher : Nat
  role : Option String
deriving DecidableEq

/-- SampleResearchersCreateView.post (views.py lines 395-417):
PrimaryKeyRelatedField existence of both sides, the role choice, and the
unique-together validator on the (sample, researcher) pair that the
ModelSerializer derives from Meta.unique_together (models.py line 341). -/
def SampleResearchersCreateView.post (now : Nat) (st : Store) (r : LinkReq) :
    Store × Except ApiErr SampleResearchers :=
  if (st.findSample r.sample).isNone then
    (st, Except.error (ApiErr.validationErr "Invalid pk for sample"))
  else if (st.findResearcher r.researcher).isNone then
    (st, Except.error (ApiErr.validationErr "Invalid pk for researcher"))
  else if (match r.role with
           | none => false
           | some ro => !(ROLE_CHOICES.contains ro)) then
    (st, Except.error (ApiErr.validationErr "role is not a valid choice"))
  else if st.sample_researchers.any
      (fun l => l.sample_id == r.sample && l.researcher_id == r.researcher) then
    (st, Except.error (ApiErr.validationErr "The fields sample, researcher must make a unique set"))
  else
    let link : SampleResearchers :=
      { id := st.next_link_id, sample_id := r.sample,
        researcher_id := r.researcher, role := r.role, assigned_at := now }
    ({ st with sample_researchers := st.sample_researchers ++ [link],
               next_link_id := st.next_link_id + 1 },
     Except.ok link)

/-- Request body of the growth metric creation endpoints. -/
structure GrowthReq where
  height : Option ℚ
  leaf_count : Option Int
  stem_diameter : Option ℚ
  health_status : Option String
deriving DecidableEq

def checkOpt {α : Type} (v : Option α) (p : α → Bool) (msg : String) :
    Except String Unit :=
  match v with
  | none => Except.ok ()
  | some x => if p x then Except.ok () else Except.error msg

/-- Field validators of GrowthMetrics run by the serializer and full_clean
(models.py lines 371-395): height in 0..200, leaf_count in 0..100000,
stem_diameter in 0..50, health_status in the fixed choice set; every field is
optional. -/
def GrowthMetricsSerializer.validate (r : GrowthReq) : Except String Unit := do
  checkOpt r.height (fun h => decide (0 ≤ h ∧ h ≤ 200))
    "height must be between 0 and 200"
  checkOpt r.leaf_count (fun n => decide (0 ≤ n ∧ n ≤ 100000))
    "leaf_count must be between 0 and 100000"
  checkOpt r.stem_diameter (fun d => decide (0 ≤ d ∧ d ≤ 50))
    "stem_diameter must be between 0 and 50"
  checkOpt r.health_status (fun h => HEALTH_STATUS_CHOICES.contains h)
    "health_status is not a valid choice"

/-- GrowthMetricsCreateForSampleView.post (views.py lines 464-508),
instrumented.  The sample lookup has no is_deleted filter, so a soft-deleted
sample is found like an active one; GrowthMetrics.clean runs with measured_at
still unset (auto_now_add), so its date comparison is skipped. -/
def GrowthMetricsCreateForSampleView.postI (oracle : Nat → Bool) (now : Nat)
    (st : Store) (sid : Nat) (r : GrowthReq) : Store × Except ApiErr GrowthMetrics :=
  match st.findSample sid with
  | none => (st, Except.error ApiErr.notFound)
  | some _ =>
    match GrowthMetricsSerializer.validate r with
    | Except.error m => (st, Except.error (ApiErr.validationErr m))
    | Except.ok () =>
      match GrowthMetrics.clean st.samples sid none with
      | Except.error m => (st, Except.error (ApiErr.validationErr m))
      | Except.ok () =>
        let m : GrowthMetrics :=
          { growth_id := st.next_growth_id, sample_id := sid,
            height := r.height, leaf_count := r.leaf_count,
            stem_diameter := r.stem_diameter, health_status := r.health_status,
            measured_at := now }
        let steps := [insertMetricStep m,
          insertAuditStep sid "GROWTH_METRICS_ADDED" now
            (AuditDetails.growthAddedD m.growth_id m.height m.leaf_count
              m.stem_diameter m.health_status)]
        match runAtomic oracle steps st with
        | some st' => (st', Except.ok m)
        | none => (st, Except.error ApiErr.storageErr)

def GrowthMetricsCreateForSampleView.post (now : Nat) (st : Store) (sid : Nat)
    (r : GrowthReq) : Store × Except ApiErr GrowthMetrics :=
  GrowthMetricsCreateForSampleView.postI noFail now st sid r

/-! Concrete fixtures used by the counterexamples and witnesses. -/

def demoLocation : SamplingLocation :=
  { location_id := 1,
    location_data :=
      { coordinates := DictField.dict
          { latitude := some (NumVal.val 10), longitude := some (NumVal.val 20) },
        region := true, country := true, site_type := some "forest" },
    created_at := 0 }

def demoCondition : EnvironmentalConditions :=
  { condition_id := 1,
    condition_data :=
      { soil_composition := DictField.dict
          { pH := some (NumVal.val 7), nutrients := true, soilType := some "loamy" },
        temperature := some (NumVal.val 25), humidity := some (NumVal.val 60),
        altitude := some (NumVal.val 100) },
    recorded_at := 0 }

def demoResearcher : ResearcherInfo :=
  { researcher_id := 1, name := "Alice Tan", email := "alice.tan@example.org" }

def demoDetail : SampleDetail :=
  { species := some "Quercus robur", common_name := some "English Oak",
    sampling_date := some (DateVal.valid 50) }

def demoSample : PlantSample :=
  { sample_id := 1, sample_detail := demoDetail, location_id := 1,
    condition_id := 1, is_deleted := false, deleted_at := none,
    created_at := 10, updated_at := 10 }

def demoDeletedSample : PlantSample :=
  { sample_id := 2,
    sample_detail :=
      { species := some "Betula pendula", common_name := some "Silver Birch",
        sampling_date := some (DateVal.valid 40) },
    location_id := 1, condition_id := 1, is_deleted := true,
    deleted_at := some 20, created_at := 12, updated_at := 20 }

def demoMetric : GrowthMetrics :=
  { growth_id := 1, sample_id := 1, height := some 12, leaf_count := some 4,
    stem_diameter := some 1, health_status := some "good", measured_at := 60 }

def demoLink : SampleResearchers :=
  { id := 1, sample_id := 1, researcher_id := 1,
    role := some "lead_researcher", assigned_at := 30 }

def demoStore : Store :=
  { locations := [demoLocation], conditions := [demoCondition],
    researchers := [demoResearcher],
    samples := [demoSample, demoDeletedSample],
    sample_researchers := [demoLink], growth_metrics := [demoMetric],
    audit_log := [{ log_id := 1, sample_id := 1, action := "CREATED",
                    performed_at := 10,
                    details := AuditDetails.createdD (some "Quercus robur") 1 }],
    next_sample_id := 3, next_link_id := 2, next_growth_id := 2, next_log_id := 2 }

/-! Helper lemmas about the transaction runner and list searches. -/

lemma runAtomicAux_noFail (steps : List Step) :
    ∀ (i : Nat) (st : Store),
      runAtomicAux noFail steps i st = some (applySteps steps st) := by
  induction steps with
  | nil => intro i st; simp [runAtomicAux, applySteps]
  | cons f fs ih =>
    intro i st
    simp [runAtomicAux, noFail, ih (i + 1) (f st), applySteps]

lemma runAtomic_noFail (steps : List Step) (st : Store) :
    runAtomic noFail steps st = some (applySteps steps st) :=
  runAtomicAux_noFail steps 0 st

lemma runAtomic_two {oracle : Nat → Bool} {f g : Step} {st st' : Store}
    (h : runAtomic oracle [f, g] st = some st') : st' = g (f st) := by
  simp only [runAtomic, runAtomicAux] at h
  split_ifs at h with h0 h1
  exact (Option.some.inj h).symm

lemma runAtomic_four {oracle : Nat → Bool} {f g j k : Step} {st st' : Store}
    (h : runAtomic oracle [f, g, j, k] st = some st') : st' = k (j (g (f st))) := by
  simp only [runAtomic, runAtomicAux] at h
  split_ifs at h with h0 h1 h2 h3
  exact (Option.some.inj h).symm

lemma find?_filter_ne (l : List PlantSample) (sid : Nat) :
    (l.filter (fun s => s.sample_id != sid)).find?
      (fun s => s.sample_id == sid) = none := by
  apply List.find?_eq_none.mpr
  intro x hx
  have hmem := List.mem_filter.mp hx
  have hne : x.sample_id ≠ sid := by
    have := hmem.2
    simpa using this
  simp [hne]

lemma find?_map_replace (l : List PlantSample) (sid : Nat) (s s' : PlantSample)
    (h : l.find? (fun x => x.sample_id == sid) = some s)
    (hs' : s'.sample_id = sid) :
    (l.map (fun x => if x.sample_id == sid then s' else x)).find?
      (fun x => x.sample_id == sid) = some s' := by
  induction l with
  | nil => simp at h
  | cons a t ih =>
    by_cases ha : a.sample_id = sid
    · simp only [List.map_cons]
      rw [if_pos (by simp [ha] : (a.sample_id == sid) = true)]
      exact List.find?_cons_of_pos _ (by simp [hs'])
    · rw [List.find?_cons_of_neg _ (by simp [ha])] at h
      simp only [List.map_cons]
      rw [if_neg (by simp [ha])]
      rw [List.find?_cons_of_neg _ (by simp [ha])]
      exact ih h

/-! Facts about PlantSample.clean and PlantSample.save. -/

lemma clean_ok_date {today : Nat} {d : SampleDetail}
    (h : PlantSample.clean today d = Except.ok ()) :
    ∃ dt, d.sampling_date = some (DateVal.valid dt) ∧ dt ≤ today := by
  obtain ⟨sp, cn, sd⟩ := d
  rcases sd with _ | dv
  · simp [PlantSample.clean] at h
  rcases sp with _ | s
  · simp [PlantSample.clean] at h
  rcases cn with _ | c
  · simp [PlantSample.clean] at h
  by_cases hb : pyBlank s
  · simp [PlantSample.clean, hb] at h
  cases dv with
  | valid dt =>
    by_cases ht : today < dt
    · simp [PlantSample.clean, hb, ht] at h
    · exact ⟨dt, rfl, Nat.le_of_not_lt ht⟩
  | emptyStr => simp [PlantSample.clean, hb] at h
  | malformed => simp [PlantSample.clean, hb] at h

lemma clean_ok_fields {today : Nat} {d : SampleDetail}
    (h : PlantSample.clean today d = Except.ok ()) :
    d.sampling_date ≠ none ∧ d.species ≠ none ∧ d.common_name ≠ none := by
  obtain ⟨sp, cn, sd⟩ := d
  rcases sd with _ | dv
  · simp [PlantSample.clean] at h
  rcases sp with _ | s
  · simp [PlantSample.clean] at h
  rcases cn with _ | c
  · simp [PlantSample.clean] at h
  simp

lemma save_ok_date {today : Nat} {d d' : SampleDetail}
    (h : PlantSample.save today d = Except.ok d') :
    ∃ dt, d'.sampling_date = some (DateVal.valid dt) ∧ dt ≤ today := by
  simp only [PlantSample.save] at h
  cases hc : PlantSample.clean today
      (if d.sampling_date = none ∨ d.sampling_date = some DateVal.emptyStr then
        { d with sampling_date := some (DateVal.valid today) } else d) with
  | error m => rw [hc] at h; simp [Except.map] at h
  | ok u =>
    rw [hc] at h
    simp only [Except.map, Except.ok.injEq] at h
    cases u
    rw [← h]
    exact clean_ok_date hc

lemma save_autofill {today : Nat} {d d' : SampleDetail}
    (hd : d.sampling_date = none ∨ d.sampling_date = some DateVal.emptyStr)
    (h : PlantSample.save today d = Except.ok d') :
    d'.sampling_date = some (DateVal.valid today) ∧
    d'.species = d.species ∧ d'.common_name = d.common_name := by
  simp only [PlantSample.save, if_pos hd] at h
  cases hc : PlantSample.clean today
      { d with sampling_date := some (DateVal.valid today) } with
  | error m => rw [hc] at h; simp [Except.map] at h
  | ok u =>
    rw [hc] at h
    simp only [Except.map, Except.ok.injEq] at h
    rw [← h]
    simp

lemma save_fixpoint {today : Nat} {d : SampleDetail}
    (h : PlantSample.save today d = Except.ok d) :
    PlantSample.clean today d = Except.ok () := by
  by_cases hd : d.sampling_date = none ∨ d.sampling_date = some DateVal.emptyStr
  · have := (save_autofill hd h).1
    rcases hd with h1 | h1 <;> rw [h1] at this <;> simp at this
  · simp only [PlantSample.save, if_neg hd] at h
    cases hc : PlantSample.clean today d with
    | error m => rw [hc] at h; simp [Except.map] at h
    | ok u => cases u; rfl

lemma validate_update_detail_missing (d : SampleDetail)
    (hmiss : d.sampling_date = none ∨ d.species = none ∨ d.common_name = none) :
    ∃ m, PlantSampleUpdateSerializer.validate_sample_detail d = Except.error m := by
  by_cases h1 : d.sampling_date = none
  · exact ⟨"sample_detail must contain sampling_date",
      by simp [PlantSampleUpdateSerializer.validate_sample_detail, h1]⟩
  by_cases h2 : d.species = none
  · exact ⟨"sample_detail must contain species",
      by simp [PlantSampleUpdateSerializer.validate_sample_detail, h1, h2]⟩
  have h3 : d.common_name = none := by tauto
  exact ⟨"sample_detail must contain common_name",
    by simp [PlantSampleUpdateSerializer.validate_sample_detail, h1, h2, h3]⟩

lemma validate_update_detail_ok {today : Nat} {d : SampleDetail}
    (h : PlantSample.clean today d = Except.ok ()) :
    PlantSampleUpdateSerializer.validate_sample_detail d = Except.ok d := by
  obtain ⟨f1, f2, f3⟩ := clean_ok_fields h
  simp [PlantSampleUpdateSerializer.validate_sample_detail, f1, f2, f3]

/-! C2: sampling_date at create and update. -/

def reqNoDate : CreateReq :=
  { sample_detail := { species := some "Quercus robur",
                       common_name := some "English Oak", sampling_date := none },
    location := 1, condition := 1 }

def reqEmptyDate : CreateReq :=
  { sample_detail := { species := some "Acer campestre",
                       common_name := some "Field Maple",
                       sampling_date := some DateVal.emptyStr },
    location := 1, condition := 1 }

/-- C2, counterexample: a create request whose detail payload has no
sampling_date key does not succeed, contrary to the claim: with valid
location 1 and condition 1, the create serializer rejects it and the store is
unchanged, because PlantSampleCreateSerializer.validate_sample_detail demands
the key before the model auto-fill can ever run. -/
theorem C2_counterexample :
    PlantSampleCreateView.post 100 100 demoStore reqNoDate =
      (demoStore,
       Except.error (ApiErr.validationErr "sample_detail must contain sampling_date")) := by
  rfl

/-- C2, amended: (1) a create whose detail payload lacks the sampling_date
key fails validation and leaves the store unchanged; (2) a create whose
sampling_date key is present but empty (falsy) succeeds and stores todays
date via the model auto-fill; (3) after any successful create the stored
sampling_date is present and not after today; (4) after any successful
partial update the stored sampling_date is present and not after today. -/
theorem C2_sampling_date :
    (∀ (today now : Nat) (st : Store) (r : CreateReq),
       r.sample_detail.sampling_date = none →
       PlantSampleCreateView.post today now st r =
         (st, Except.error (ApiErr.validationErr "sample_detail must contain sampling_date")))
  ∧ (∀ (today now : Nat) (st : Store) (r : CreateReq) (st2 : Store)
       (p : DetailProjection),
       r.sample_detail.sampling_date = some DateVal.emptyStr →
       PlantSampleCreateView.post today now st r = (st2, Except.ok p) →
       ∃ s : PlantSample, st2.samples = st.samples ++ [s] ∧
         s.sample_detail.sampling_date = some (DateVal.valid today))
  ∧ (∀ (today now : Nat) (st : Store) (r : CreateReq) (st2 : Store)
       (p : DetailProjection),
       PlantSampleCreateView.post today now st r = (st2, Except.ok p) →
       ∃ (s : PlantSample) (dt : Nat), st2.samples = st.samples ++ [s] ∧
         s.sample_detail.sampling_date = some (DateVal.valid dt) ∧ dt ≤ today)
  ∧ (∀ (today now : Nat) (st : Store) (sid : Nat) (r : PatchReq) (st2 : Store)
       (p : DetailProjection),
       PlantSampleUpdateView.patch today now st sid r = (st2, Except.ok p) →
       ∃ (s' : PlantSample) (dt : Nat),
         st2.samples = st.samples.map
           (fun x => if x.sample_id == sid then s' else x) ∧
         s'.sample_detail.sampling_date = some (DateVal.valid dt) ∧ dt ≤ today) := by
  refine ⟨?_, ?_, ?_, ?_⟩
  · intro today now st r hdate
    have hv : validateCreateReq st r =
        Except.error "sample_detail must contain sampling_date" := by
      simp [validateCreateReq, PlantSampleCreateSerializer.validate_sample_detail, hdate]
    unfold PlantSampleCreateView.post PlantSampleCreateView.postI
    rw [hv]
  · intro today now st r st2 p hdate h
    unfold PlantSampleCreateView.post PlantSampleCreateView.postI at h
    cases hv : validateCreateReq st r with
    | error m => simp only [hv] at h; simp at h
    | ok u =>
      cases u
      cases hs : PlantSample.save today r.sample_detail with
      | error m => simp only [hv, hs] at h; simp at h
      | ok detail =>
        simp only [hv, hs, runAtomic_noFail, applySteps, List.foldl,
          Prod.mk.injEq] at h
        obtain ⟨h1, h2⟩ := h
        obtain ⟨hfill, -, -⟩ := save_autofill (Or.inr hdate) hs
        refine ⟨{ sample_id := st.next_sample_id, sample_detail := detail,
                  location_id := r.location, condition_id := r.condition,
                  is_deleted := false, deleted_at := none,
                  created_at := now, updated_at := now }, ?_, hfill⟩
        rw [← h1]
        simp [insertSampleStep, insertAuditStep]
  · intro today now st r st2 p h
    unfold PlantSampleCreateView.post PlantSampleCreateView.postI at h
    cases hv : validateCreateReq st r with
    | error m => simp only [hv] at h; simp at h
    | ok u =>
      cases u
      cases hs : PlantSample.save today r.sample_detail with
      | error m => simp only [hv, hs] at h; simp at h
      | ok detail =>
        simp only [hv, hs, runAtomic_noFail, applySteps, List.foldl,
          Prod.mk.injEq] at h
        obtain ⟨h1, h2⟩ := h
        obtain ⟨dt, hdt, hle⟩ := save_ok_date hs
        refine ⟨{ sample_id := st.next_sample_id, sample_detail := detail,
                  location_id := r.location, condition_id := r.condition,
                  is_deleted := false, deleted_at := none,
                  created_at := now, updated_at := now }, dt, ?_, hdt, hle⟩
        rw [← h1]
        simp [insertSampleStep, insertAuditStep]
  · intro today now st sid r st2 p h
    unfold PlantSampleUpdateView.patch PlantSampleUpdateView.patchI at h
    cases hf : st.findSample sid with
    | none => simp only [hf] at h; simp at h
    | some s =>
      by_cases hd : s.is_deleted
      · simp only [hf] at h; simp [hd] at h
      cases hvd : validatePatchDetail r with
      | error m => simp only [hf, hd, hvd] at h; simp at h
      | ok u =>
        cases u
        cases hvf : validatePatchFks st r with
        | error m => simp only [hf, hd, hvd, hvf] at h; simp at h
        | ok u =>
          cases u
          cases hs : PlantSample.save today (r.sample_detail.getD s.sample_detail) with
          | error m => simp only [hf, hd, hvd, hvf, hs] at h; simp at h
          | ok detail =>
            simp only [hf, hd, hvd, hvf, hs, runAtomic_noFail, applySteps,
              List.foldl, Prod.mk.injEq] at h
            rcases h with ⟨rfl, -⟩
            obtain ⟨dt, hdt, hle⟩ := save_ok_date hs
            refine ⟨{ s with
                      sample_detail := detail,
                      location_id := r.location.getD s.location_id,
                      condition_id := r.condition.getD s.condition_id,
                      is_deleted := false,
                      updated_at := now }, dt, ?_, hdt, hle⟩
            simp [updateSampleStep, insertAuditStep]

/-- Witness for C2_sampling_date at concrete inputs: the no-key create is
rejected, the empty-value create stores day 100 (today), and a successful
patch keeps a date not after today. -/
theorem C2_sampling_date_witness :
    (PlantSampleCreateView.post 100 100 demoStore reqNoDate =
      (demoStore,
       Except.error (ApiErr.validationErr "sample_detail must contain sampling_date")))
  ∧ (∃ s : PlantSample,
      (PlantSampleCreateView.post 100 100 demoStore reqEmptyDate).1.samples =
        demoStore.samples ++ [s] ∧
      s.sample_detail.sampling_date = some (DateVal.valid 100))
  ∧ (∃ (s : PlantSample) (dt : Nat),
      (PlantSampleCreateView.post 100 100 demoStore reqEmptyDate).1.samples =
        demoStore.samples ++ [s] ∧
      s.sample_detail.sampling_date = some (DateVal.valid dt) ∧ dt ≤ 100)
  ∧ (∃ (s' : PlantSample) (dt : Nat),
      (PlantSampleUpdateView.patch 100 100 demoStore 1
        { sample_detail := some demoDetail, location := none, condition := none }).1.samples =
        demoStore.samples.map (fun x => if x.sample_id == 1 then s' else x) ∧
      s'.sample_detail.sampling_date = some (DateVal.valid dt) ∧ dt ≤ 100) := by
  refine ⟨?_, ?_, ?_, ?_⟩
  · exact C2_sampling_date.1 100 100 demoStore reqNoDate rfl
  · exact C2_sampling_date.2.1 100 100 demoStore reqEmptyDate _ _ rfl rfl
  · exact C2_sampling_date.2.2.1 100 100 demoStore reqEmptyDate _ _ rfl
  · exact C2_sampling_date.2.2.2 100 100 demoStore 1
      { sample_detail := some demoDetail, location := none, condition := none } _ _ rfl

/-! C1: partial update of sample_detail. -/

def partialOakReq : PatchReq :=
  { sample_detail := some { species := none, common_name := some "Oak",
                            sampling_date := none },
    location := none, condition := none }

def demoOakDetail : SampleDetail :=
  { species := some "Quercus robur", common_name := some "Oak",
    sampling_date := some (DateVal.valid 50) }

/-- C1, counterexample: on the active sample 1 of demoStore (species Quercus
robur, common name English Oak, date day 50), a PATCH supplying only
common_name inside sample_detail does not succeed: the update serializer
rejects it because the supplied payload lacks the sampling_date key, and the
store, in particular the audit log, is unchanged. -/
theorem C1_counterexample :
    PlantSampleUpdateView.patch 100 100 demoStore 1 partialOakReq =
      (demoStore,
       Except.error (ApiErr.validationErr "sample_detail must contain sampling_date")) := by
  rfl

/-- C1, amended: for an active sample, (1) a PATCH whose sample_detail omits
any of the three required keys (sampling_date, species, common_name) fails
validation and leaves the store unchanged, so a partial detail payload never
merges; (2) a PATCH supplying a full valid sample_detail succeeds, replaces
the stored payload wholesale, and appends exactly one UPDATED audit entry
whose old_detail is the prior payload and whose new_detail is the supplied
payload. -/
theorem C1_partial_update :
    (∀ (today now : Nat) (st : Store) (sid : Nat) (s : PlantSample)
       (d : SampleDetail) (r : PatchReq),
       st.findSample sid = some s → s.is_deleted = false →
       r.sample_detail = some d →
       (d.sampling_date = none ∨ d.species = none ∨ d.common_name = none) →
       ∃ m, PlantSampleUpdateView.patch today now st sid r =
         (st, Except.error (ApiErr.validationErr m)))
  ∧ (∀ (today now : Nat) (st : Store) (sid : Nat) (s : PlantSample)
       (d : SampleDetail),
       st.findSample sid = some s → s.is_deleted = false →
       PlantSample.save today d = Except.ok d →
       ∃ st2 : Store,
         PlantSampleUpdateView.patch today now st sid
             { sample_detail := some d, location := none, condition := none } =
           (st2, Except.ok (PlantSampleDetailSerializer.serialize st2
             { s with sample_detail := d, is_deleted := false, updated_at := now })) ∧
         st2.samples = st.samples.map
           (fun x => if x.sample_id == sid then
              { s with sample_detail := d, is_deleted := false, updated_at := now }
            else x) ∧
         ∃ e : SampleAuditLog,
           st2.audit_log = st.audit_log ++ [e] ∧
           e.sample_id = sid ∧ e.action = "UPDATED" ∧
           e.details = AuditDetails.updatedD s.sample_detail d) := by
  constructor
  · intro today now st sid s d r hf hd hrd hmiss
    obtain ⟨m, hm⟩ := validate_update_detail_missing d hmiss
    have hvd : validatePatchDetail r = Except.error m := by
      simp [validatePatchDetail, hrd, hm, Except.map]
    refine ⟨m, ?_⟩
    unfold PlantSampleUpdateView.patch PlantSampleUpdateView.patchI
    simp [hf, hd, hvd]
  · intro today now st sid s d hf hd hsave
    have hclean := save_fixpoint hsave
    have hv := validate_update_detail_ok hclean
    have hvd : validatePatchDetail
        { sample_detail := some d, location := none, condition := none } =
        Except.ok () := by
      simp [validatePatchDetail, hv, Except.map]
    have hvf : validatePatchFks st
        { sample_detail := some d, location := none, condition := none } =
        Except.ok () := by
      simp [validatePatchFks]
    unfold PlantSampleUpdateView.patch PlantSampleUpdateView.patchI
    simp only [hf, hd, hvd, hvf, Option.getD, hsave, runAtomic_noFail,
      applySteps, List.foldl]
    refine ⟨_, rfl, ?_, ?_⟩
    · simp [updateSampleStep, insertAuditStep]
    · exact ⟨_, rfl, rfl, rfl, rfl⟩

/-- Witness for C1_partial_update: the common_name-only PATCH on demoStore
sample 1 is rejected, and the full-payload PATCH changing common_name to Oak
succeeds with one UPDATED audit entry. -/
theorem C1_partial_update_witness :
    (∃ m, PlantSampleUpdateView.patch 100 100 demoStore 1 partialOakReq =
      (demoStore, Except.error (ApiErr.validationErr m)))
  ∧ (∃ st2 : Store,
      PlantSampleUpdateView.patch 100 100 demoStore 1
          { sample_detail := some demoOakDetail, location := none, condition := none } =
        (st2, Except.ok (PlantSampleDetailSerializer.serialize st2
          { demoSample with sample_detail := demoOakDetail, is_deleted := false,
                            updated_at := 100 })) ∧
      st2.samples = demoStore.samples.map
        (fun x => if x.sample_id == 1 then
           { demoSample with sample_detail := demoOakDetail, is_deleted := false,
                             updated_at := 100 }
         else x) ∧
      ∃ e : SampleAuditLog,
        st2.audit_log = demoStore.audit_log ++ [e] ∧
        e.sample_id = 1 ∧ e.action = "UPDATED" ∧
        e.details = AuditDetails.updatedD demoSample.sample_detail demoOakDetail) := by
  constructor
  · exact C1_partial_update.1 100 100 demoStore 1 demoSample
      { species := none, common_name := some "Oak", sampling_date := none }
      partialOakReq rfl rfl rfl (Or.inl rfl)
  · exact C1_partial_update.2 100 100 demoStore 1 demoSample demoOakDetail
      rfl rfl (by decide)

/-! C3: soft delete is idempotent. -/

/-- C3: on an active sample, the first soft delete sets is_deleted and
deleted_at, appends exactly one DELETED audit entry and answers with the
soft-deleted response; a second soft delete of the same sample, at any later
time, returns the already-deleted signal (no error) and leaves the store,
hence the audit log, exactly as after the first call. -/
theorem C3_soft_delete_idempotent (today now now2 : Nat) (st : Store)
    (sid : Nat) (s : PlantSample)
    (hf : st.findSample sid = some s)
    (hactive : s.is_deleted = false)
    (hsave : PlantSample.save today s.sample_detail = Except.ok s.sample_detail) :
    ∃ st' : Store,
      PlantSampleDetailView.softDelete today now st sid =
        (st', Except.ok (SoftDeleteResp.softDeleted sid
          (s.sample_detail.species.getD "Unknown") "deleted")) ∧
      (∃ s', st'.findSample sid = some s' ∧ s'.is_deleted = true ∧
        s'.deleted_at = some now) ∧
      (∃ e : SampleAuditLog, st'.audit_log = st.audit_log ++ [e] ∧
        e.sample_id = sid ∧ e.action = "DELETED" ∧
        e.details = AuditDetails.deletedD (s.sample_detail.species.getD "Unknown")) ∧
      PlantSampleDetailView.softDelete today now2 st' sid =
        (st', Except.ok (SoftDeleteResp.alreadyDeleted "Sample already deleted"
          sid "deleted")) := by
  have hf' : st.samples.find? (fun x => x.sample_id == sid) = some s := hf
  have hs_id : s.sample_id = sid := by
    have := List.find?_some hf'
    simpa using this
  have hfind2 :
      (updateSampleStep sid
        { s with is_deleted := true, deleted_at := some now, updated_at := now }
        (insertAuditStep sid "DELETED" now
          (AuditDetails.deletedD (s.sample_detail.species.getD "Unknown")) st)).findSample
        sid =
      some { s with is_deleted := true, deleted_at := some now, updated_at := now } := by
    simp only [Store.findSample, updateSampleStep, insertAuditStep]
    exact find?_map_replace st.samples sid s _ hf' (by simp [hs_id])
  refine ⟨updateSampleStep sid
      { s with is_deleted := true, deleted_at := some now, updated_at := now }
      (insertAuditStep sid "DELETED" now
        (AuditDetails.deletedD (s.sample_detail.species.getD "Unknown")) st),
    ?_, ⟨_, hfind2, rfl, rfl⟩, ⟨_, rfl, rfl, rfl, rfl⟩, ?_⟩
  · unfold PlantSampleDetailView.softDelete PlantSampleDetailView.deleteI
    simp only [hf, hactive, hsave, runAtomic_noFail, applySteps, List.foldl]
    rfl
  · unfold PlantSampleDetailView.softDelete PlantSampleDetailView.deleteI
    simp only [hfind2]
    rfl

/-- Witness for C3_soft_delete_idempotent on demoStore sample 1 with the
second call at a later time. -/
theorem C3_soft_delete_idempotent_witness :
    ∃ st' : Store,
      PlantSampleDetailView.softDelete 100 100 demoStore 1 =
        (st', Except.ok (SoftDeleteResp.softDeleted 1
          (demoSample.sample_detail.species.getD "Unknown") "deleted")) ∧
      (∃ s', st'.findSample 1 = some s' ∧ s'.is_deleted = true ∧
        s'.deleted_at = some 100) ∧
      (∃ e : SampleAuditLog, st'.audit_log = demoStore.audit_log ++ [e] ∧
        e.sample_id = 1 ∧ e.action = "DELETED" ∧
        e.details = AuditDetails.deletedD
          (demoSample.sample_detail.species.getD "Unknown")) ∧
      PlantSampleDetailView.softDelete 100 200 st' 1 =
        (st', Except.ok (SoftDeleteResp.alreadyDeleted "Sample already deleted"
          1 "deleted")) :=
  C3_soft_delete_idempotent 100 100 200 demoStore 1 demoSample rfl rfl (by decide)

/-! C4: hard delete removes children and the row, keeps the audit trail. -/

lemma mem_audit_by_sample (st : Store) (sid : Nat) (e : SampleAuditLog) :
    e ∈ SampleAuditLogBySampleView.get st sid ↔
      e ∈ st.audit_log ∧ e.sample_id = sid := by
  unfold SampleAuditLogBySampleView.get
  rw [(List.perm_insertionSort newerAudit _).mem_iff]
  simp [List.mem_filter]

/-- Everything C4 asserts about the state after a successful hard delete of
sample sid whose row was s: the success response, no remaining growth metric
or researcher link for sid, get-by-id now answering notFound, the audit log
grown by exactly the HARD_DELETED entry and still serving every entry for
sid, and the write order audit entry, then growth metrics, then links, then
the sample row, read off the prefixes of hardDeleteSteps. -/
def HardDeleteOutcome (now : Nat) (st : Store) (sid : Nat) (s : PlantSample) : Prop :=
  (PlantSampleHardDeleteView.hardDelete now st sid).2 =
      Except.ok { sample_id := sid,
                  species := s.sample_detail.species.getD "Unknown" } ∧
  (∀ m ∈ (PlantSampleHardDeleteView.hardDelete now st sid).1.growth_metrics,
     m.sample_id ≠ sid) ∧
  (∀ l ∈ (PlantSampleHardDeleteView.hardDelete now st sid).1.sample_researchers,
     l.sample_id ≠ sid) ∧
  PlantSampleDetailView.get (PlantSampleHardDeleteView.hardDelete now st sid).1 sid =
      Except.error ApiErr.notFound ∧
  (∃ e : SampleAuditLog,
     (PlantSampleHardDeleteView.hardDelete now st sid).1.audit_log =
       st.audit_log ++ [e] ∧
     e.sample_id = sid ∧ e.action = "HARD_DELETED" ∧
     e.details = AuditDetails.hardDeletedD (s.sample_detail.species.getD "Unknown")) ∧
  (∀ e : SampleAuditLog,
     e ∈ SampleAuditLogBySampleView.get
           (PlantSampleHardDeleteView.hardDelete now st sid).1 sid ↔
       e ∈ (PlantSampleHardDeleteView.hardDelete now st sid).1.audit_log ∧
       e.sample_id = sid) ∧
  ((applySteps ((hardDeleteSteps sid (s.sample_detail.species.getD "Unknown") now).take 2) st).growth_metrics =
      st.growth_metrics.filter (fun m => m.sample_id != sid) ∧
   (applySteps ((hardDeleteSteps sid (s.sample_detail.species.getD "Unknown") now).take 2) st).sample_researchers =
      st.sample_researchers ∧
   (applySteps ((hardDeleteSteps sid (s.sample_detail.species.getD "Unknown") now).take 2) st).samples =
      st.samples ∧
   (applySteps ((hardDeleteSteps sid (s.sample_detail.species.getD "Unknown") now).take 3) st).sample_researchers =
      st.sample_researchers.filter (fun l => l.sample_id != sid) ∧
   (applySteps ((hardDeleteSteps sid (s.sample_detail.species.getD "Unknown") now).take 3) st).samples =
      st.samples ∧
   (applySteps (hardDeleteSteps sid (s.sample_detail.species.getD "Unknown") now) st).samples =
      st.samples.filter (fun x => x.sample_id != sid))

/-- C4: for an existing sample in any lifecycle state, hard delete leaves no
growth metric and no researcher link for that sample, makes get-by-id answer
notFound, appends the HARD_DELETED audit entry while keeping every earlier
entry for the sample readable through the per-sample audit listing, and
performs the writes in the order audit entry, growth metrics, links, sample
row. -/
theorem C4_hard_delete (now : Nat) (st : Store) (sid : Nat) (s : PlantSample)
    (hf : st.findSample sid = some s) :
    HardDeleteOutcome now st sid s := by
  have hmain : PlantSampleHardDeleteView.hardDelete now st sid =
      (applySteps (hardDeleteSteps sid (s.sample_detail.species.getD "Unknown") now) st,
       Except.ok { sample_id := sid,
                   species := s.sample_detail.species.getD "Unknown" }) := by
    unfold PlantSampleHardDeleteView.hardDelete PlantSampleHardDeleteView.deleteI
    simp only [hf, runAtomic_noFail]
  unfold HardDeleteOutcome
  rw [hmain]
  refine ⟨rfl, ?_, ?_, ?_, ⟨_, rfl, rfl, rfl, rfl⟩, ?_, rfl, rfl, rfl, rfl, rfl, rfl⟩
  · intro m hm
    have := (List.mem_filter.mp hm).2
    simpa using this
  · intro l hl
    have := (List.mem_filter.mp hl).2
    simpa using this
  · unfold PlantSampleDetailView.get
    have hnone : (applySteps (hardDeleteSteps sid
        (s.sample_detail.species.getD "Unknown") now) st).findSample sid = none := by
      unfold Store.findSample
      exact find?_filter_ne _ sid
    rw [hnone]
  · intro e
    exact mem_audit_by_sample _ sid e

/-- Witness for C4_hard_delete: hard delete of active sample 1 of demoStore,
which has one growth metric and one researcher link. -/
theorem C4_hard_delete_witness : HardDeleteOutcome 300 demoStore 1 demoSample :=
  C4_hard_delete 300 demoStore 1 demoSample rfl

/-! C6: listing hides soft-deleted samples; deleted get returns the marker. -/

lemma mem_list_view (st : Store) (item : SampleListItem) :
    item ∈ PlantSampleListView.get st ↔
      ∃ x, x ∈ st.samples ∧ x.is_deleted = false ∧
        item = PlantSampleListSerializer.serialize x := by
  unfold PlantSampleListView.get
  rw [List.mem_map]
  constructor
  · rintro ⟨x, hx, rfl⟩
    rw [(List.perm_insertionSort newerSample _).mem_iff] at hx
    obtain ⟨hx1, hx2⟩ := List.mem_filter.mp hx
    exact ⟨x, hx1, by simpa using hx2, rfl⟩
  · rintro ⟨x, hx1, hx2, rfl⟩
    refine ⟨x, ?_, rfl⟩
    rw [(List.perm_insertionSort newerSample _).mem_iff]
    exact List.mem_filter.mpr ⟨hx1, by simp [hx2]⟩

lemma list_view_sorted (st : Store) :
    List.Sorted (fun a b : SampleListItem => b.created_at ≤ a.created_at)
      (PlantSampleListView.get st) := by
  unfold PlantSampleListView.get
  rw [List.Sorted, List.pairwise_map]
  exact List.sorted_insertionSort newerSample
    (st.samples.filter (fun s => !s.is_deleted))

/-- What C6 asserts of store st and soft-deleted sample sid: an item is in
the list view exactly when it is the basic projection of a stored
non-deleted sample, the list view is ordered newest first by created_at, and
get-by-id of sid returns the reduced deleted marker. -/
def ListAndMarkerOutcome (st : Store) (sid : Nat) : Prop :=
  (∀ item : SampleListItem, item ∈ PlantSampleListView.get st ↔
     ∃ x, x ∈ st.samples ∧ x.is_deleted = false ∧
       item = PlantSampleListSerializer.serialize x) ∧
  List.Sorted (fun a b : SampleListItem => b.created_at ≤ a.created_at)
    (PlantSampleListView.get st) ∧
  PlantSampleDetailView.get st sid =
    Except.ok (GetResp.deletedMarker "Sample deleted" sid "deleted")

/-- C6: the sample list returns exactly the non-soft-deleted samples, newest
first by creation time, in the basic projection, and get-by-id of a
soft-deleted sample returns the reduced deleted marker instead of the detail
projection. -/
theorem C6_list_and_deleted_marker (st : Store) (sid : Nat) (s : PlantSample)
    (hf : st.findSample sid = some s) (hdel : s.is_deleted = true) :
    ListAndMarkerOutcome st sid := by
  refine ⟨mem_list_view st, list_view_sorted st, ?_⟩
  unfold PlantSampleDetailView.get
  rw [hf]
  simp [hdel]

/-- Witness for C6 on demoStore, whose sample 2 is soft-deleted. -/
theorem C6_list_and_deleted_marker_witness : ListAndMarkerOutcome demoStore 2 :=
  C6_list_and_deleted_marker demoStore 2 demoDeletedSample rfl rfl

/-! C7: restrict-on-delete for locations and conditions. -/

def spareLocation : SamplingLocation :=
  { location_id := 9, location_data := demoLocation.location_data, created_at := 5 }

def spareCondition : EnvironmentalConditions :=
  { condition_id := 9, condition_data := demoCondition.condition_data, recorded_at := 5 }

def demoStoreSolo : Store :=
  { demoStore with samples := [demoSample],
                   locations := [demoLocation, spareLocation],
                   conditions := [demoCondition, spareCondition] }

/-- C7: deleting a location or condition referenced by any stored sample row
(active or soft-deleted) fails with the restrict error and changes nothing;
deleting an unreferenced one succeeds and removes it; and after hard-deleting
the only sample that referenced a location, deleting that location
succeeds. -/
theorem C7_restrict_delete :
    (∀ (st : Store) (lid : Nat) (l : SamplingLocation) (x : PlantSample),
       st.findLocation lid = some l → x ∈ st.samples → x.location_id = lid →
       SamplingLocationDetailView.delete st lid =
         (st, Except.error ApiErr.restricted))
  ∧ (∀ (st : Store) (lid : Nat) (l : SamplingLocation),
       st.findLocation lid = some l →
       (∀ x ∈ st.samples, x.location_id ≠ lid) →
       SamplingLocationDetailView.delete st lid =
         ({ st with locations := st.locations.filter (fun y => y.location_id != lid) },
          Except.ok ()))
  ∧ (∀ (now : Nat) (st : Store) (lid sid : Nat) (l : SamplingLocation),
       st.findLocation lid = some l →
       (∀ x ∈ st.samples, x.location_id = lid → x.sample_id = sid) →
       (SamplingLocationDetailView.delete
          (PlantSampleHardDeleteView.hardDelete now st sid).1 lid).2 = Except.ok ())
  ∧ (∀ (st : Store) (cid : Nat) (c : EnvironmentalConditions) (x : PlantSample),
       st.findCondition cid = some c → x ∈ st.samples → x.condition_id = cid →
       EnvironmentalConditionsDetailView.delete st cid =
         (st, Except.error ApiErr.restricted))
  ∧ (∀ (st : Store) (cid : Nat) (c : EnvironmentalConditions),
       st.findCondition cid = some c →
       (∀ x ∈ st.samples, x.condition_id ≠ cid) →
       EnvironmentalConditionsDetailView.delete st cid =
         ({ st with conditions := st.conditions.filter (fun y => y.condition_id != cid) },
          Except.ok ())) := by
  refine ⟨?_, ?_, ?_, ?_, ?_⟩
  · intro st lid l x hfl hx hxl
    have hany : st.samples.any (fun y => y.location_id == lid) = true :=
      List.any_eq_true.mpr ⟨x, hx, by simp [hxl]⟩
    unfold SamplingLocationDetailView.delete
    rw [hfl]
    simp [hany]
  · intro st lid l hfl href
    have hany : st.samples.any (fun y => y.location_id == lid) = false := by
      rw [List.any_eq_false]
      intro x hx
      simp [href x hx]
    unfold SamplingLocationDetailView.delete
    rw [hfl]
    simp [hany]
  · intro now st lid sid l hfl honly
    cases hfs : st.findSample sid with
    | none =>
      have hst' : PlantSampleHardDeleteView.hardDelete now st sid =
          (st, Except.error ApiErr.notFound) := by
        unfold PlantSampleHardDeleteView.hardDelete PlantSampleHardDeleteView.deleteI
        rw [hfs]
      rw [hst']
      have hany : st.samples.any (fun y => y.location_id == lid) = false := by
        rw [List.any_eq_false]
        intro x hx
        intro hxl
        have hxid := honly x hx (by simpa using hxl)
        have hno := List.find?_eq_none.mp hfs x hx
        simp [hxid] at hno
      unfold SamplingLocationDetailView.delete
      rw [hfl]
      simp [hany]
    | some s =>
      have hmain : PlantSampleHardDeleteView.hardDelete now st sid =
          (applySteps (hardDeleteSteps sid (s.sample_detail.species.getD "Unknown") now) st,
           Except.ok { sample_id := sid,
                       species := s.sample_detail.species.getD "Unknown" }) := by
        unfold PlantSampleHardDeleteView.hardDelete PlantSampleHardDeleteView.deleteI
        simp only [hfs, runAtomic_noFail]
      rw [hmain]
      have hfl' : (applySteps (hardDeleteSteps sid
          (s.sample_detail.species.getD "Unknown") now) st).findLocation lid = some l := hfl
      have hany : (applySteps (hardDeleteSteps sid
          (s.sample_detail.species.getD "Unknown") now) st).samples.any
            (fun y => y.location_id == lid) = false := by
        rw [List.any_eq_false]
        intro x hx
        intro hxl
        have hx2 : x ∈ st.samples.filter (fun y => y.sample_id != sid) := hx
        obtain ⟨hx3, hx4⟩ := List.mem_filter.mp hx2
        have hxid := honly x hx3 (by simpa using hxl)
        simp [hxid] at hx4
      unfold SamplingLocationDetailView.delete
      rw [hfl']
      simp [hany]
  · intro st cid c x hfc hx hxc
    have hany : st.samples.any (fun y => y.condition_id == cid) = true :=
      List.any_eq_true.mpr ⟨x, hx, by simp [hxc]⟩
    unfold EnvironmentalConditionsDetailView.delete
    rw [hfc]
    simp [hany]
  · intro st cid c hfc href
    have hany : st.samples.any (fun y => y.condition_id == cid) = false := by
      rw [List.any_eq_false]
      intro x hx
      simp [href x hx]
    unfold EnvironmentalConditionsDetailView.delete
    rw [hfc]
    simp [hany]

/-- Witness for C7_restrict_delete: location 1 of demoStore is referenced by
sample 1, so its deletion is rejected; the unreferenced location 9 and
condition 9 of demoStoreSolo delete fine; after hard-deleting sample 1, the
lone referencer, location 1 of demoStoreSolo deletes fine; condition 1 of
demoStore is referenced, so its deletion is rejected. -/
theorem C7_restrict_delete_witness :
    (SamplingLocationDetailView.delete demoStore 1 =
      (demoStore, Except.error ApiErr.restricted))
  ∧ (SamplingLocationDetailView.delete demoStoreSolo 9 =
      ({ demoStoreSolo with
         locations := demoStoreSolo.locations.filter (fun y => y.location_id != 9) },
       Except.ok ()))
  ∧ ((SamplingLocationDetailView.delete
        (PlantSampleHardDeleteView.hardDelete 300 demoStoreSolo 1).1 1).2 =
      Except.ok ())
  ∧ (EnvironmentalConditionsDetailView.delete demoStore 1 =
      (demoStore, Except.error ApiErr.restricted))
  ∧ (EnvironmentalConditionsDetailView.delete demoStoreSolo 9 =
      ({ demoStoreSolo with
         conditions := demoStoreSolo.conditions.filter (fun y => y.condition_id != 9) },
       Except.ok ())) := by
  refine ⟨?_, ?_, ?_, ?_, ?_⟩
  · exact C7_restrict_delete.1 demoStore 1 demoLocation demoSample rfl
      (by simp [demoStore]) rfl
  · exact C7_restrict_delete.2.1 demoStoreSolo 9 spareLocation rfl (by decide)
  · exact C7_restrict_delete.2.2.1 300 demoStoreSolo 1 1 demoLocation rfl (by decide)
  · exact C7_restrict_delete.2.2.2.1 demoStore 1 demoCondition demoSample rfl
      (by simp [demoStore]) rfl
  · exact C7_restrict_delete.2.2.2.2 demoStoreSolo 9 spareCondition rfl (by decide)

/-! C8: the (sample, researcher) pair is unique in SampleResearchers. -/

/-- The at-most-once invariant for the junction table: the list of
(sample_id, researcher_id) pairs has no duplicate. -/
def pairsUnique (st : Store) : Prop :=
  (st.sample_researchers.map (fun l => (l.sample_id, l.researcher_id))).Nodup

/-- C8: creating a link whose (sample, researcher) pair already exists fails
with the unique-set validation error and leaves the store unchanged; a link
with a fresh pair (and existing sample and researcher) succeeds and appends
one row; and the at-most-once invariant is preserved both by link creation
and by the link-cascading hard delete. -/
theorem C8_unique_link :
    (∀ (now : Nat) (st : Store) (r : LinkReq) (s : PlantSample)
       (ri : ResearcherInfo) (l0 : SampleResearchers),
       st.findSample r.sample = some s →
       st.findResearcher r.researcher = some ri →
       (∀ ro, r.role = some ro → ro ∈ ROLE_CHOICES) →
       l0 ∈ st.sample_researchers → l0.sample_id = r.sample →
       l0.researcher_id = r.researcher →
       SampleResearchersCreateView.post now st r =
         (st, Except.error
           (ApiErr.validationErr "The fields sample, researcher must make a unique set")))
  ∧ (∀ (now : Nat) (st : Store) (r : LinkReq) (s : PlantSample)
       (ri : ResearcherInfo),
       st.findSample r.sample = some s →
       st.findResearcher r.researcher = some ri →
       (∀ ro, r.role = some ro → ro ∈ ROLE_CHOICES) →
       (∀ l0 ∈ st.sample_researchers,
          ¬(l0.sample_id = r.sample ∧ l0.researcher_id = r.researcher)) →
       SampleResearchersCreateView.post now st r =
         ({ st with
            sample_researchers := st.sample_researchers ++
              [{ id := st.next_link_id, sample_id := r.sample,
                 researcher_id := r.researcher, role := r.role,
                 assigned_at := now }],
            next_link_id := st.next_link_id + 1 },
          Except.ok { id := st.next_link_id, sample_id := r.sample,
                      researcher_id := r.researcher, role := r.role,
                      assigned_at := now }))
  ∧ (∀ (now : Nat) (st : Store) (r : LinkReq),
       pairsUnique st → pairsUnique (SampleResearchersCreateView.post now st r).1)
  ∧ (∀ (now : Nat) (st : Store) (sid : Nat),
       pairsUnique st →
       pairsUnique (PlantSampleHardDeleteView.hardDelete now st sid).1) := by
  refine ⟨?_, ?_, ?_, ?_⟩
  · intro now st r s ri l0 hfs hfr hrole hl0 hl0s hl0r
    have hdup : st.sample_researchers.any
        (fun l => l.sample_id == r.sample && l.researcher_id == r.researcher) = true :=
      List.any_eq_true.mpr ⟨l0, hl0, by simp [hl0s, hl0r]⟩
    unfold SampleResearchersCreateView.post
    cases hro : r.role with
    | none => simp [hfs, hfr, hdup]
    | some ro =>
      have hmem : ro ∈ ROLE_CHOICES := hrole ro hro
      simp [hfs, hfr, hdup, hmem]
  · intro now st r s ri hfs hfr hrole hnone
    have hdup : st.sample_researchers.any
        (fun l => l.sample_id == r.sample && l.researcher_id == r.researcher) = false := by
      rw [List.any_eq_false]
      intro x hx
      have hnx := hnone x hx
      simp only [Bool.and_eq_true, beq_iff_eq]
      intro hc
      exact hnx hc
    unfold SampleResearchersCreateView.post
    cases hro : r.role with
    | none => simp [hfs, hfr, hdup]
    | some ro =>
      have hmem : ro ∈ ROLE_CHOICES := hrole ro hro
      simp [hfs, hfr, hdup, hmem]
  · intro now st r hu
    unfold SampleResearchersCreateView.post
    split
    · exact hu
    split
    · exact hu
    split
    · exact hu
    split
    · exact hu
    rename_i h4
    unfold pairsUnique at hu ⊢
    rw [List.map_append, List.nodup_append]
    refine ⟨hu, List.nodup_singleton _, ?_⟩
    intro a ha hb
    simp only [List.map_cons, List.map_nil, List.mem_singleton] at hb
    obtain ⟨x, hx, hxa⟩ := List.mem_map.mp ha
    apply h4
    rw [List.any_eq_true]
    refine ⟨x, hx, ?_⟩
    have h5 := Prod.mk.inj (hxa.trans hb)
    simp [h5.1, h5.2]
  · intro now st sid hu
    cases hfs : st.findSample sid with
    | none =>
      have hst' : PlantSampleHardDeleteView.hardDelete now st sid =
          (st, Except.error ApiErr.notFound) := by
        unfold PlantSampleHardDeleteView.hardDelete PlantSampleHardDeleteView.deleteI
        simp only [hfs]
      rw [hst']
      exact hu
    | some s =>
      have hmain : PlantSampleHardDeleteView.hardDelete now st sid =
          (applySteps (hardDeleteSteps sid (s.sample_detail.species.getD "Unknown") now) st,
           Except.ok { sample_id := sid,
                       species := s.sample_detail.species.getD "Unknown" }) := by
        unfold PlantSampleHardDeleteView.hardDelete PlantSampleHardDeleteView.deleteI
        simp only [hfs, runAtomic_noFail]
      rw [hmain]
      unfold pairsUnique at hu ⊢
      exact hu.sublist ((List.filter_sublist _).map _)

def dupLinkReq : LinkReq := { sample := 1, researcher := 1, role := some "lead_researcher" }

def freshLinkReq : LinkReq := { sample := 2, researcher := 1, role := none }

/-- Witness for C8_unique_link on demoStore: the (1,1) pair already linked is
rejected, the fresh (2,1) pair is accepted, and both operations preserve the
invariant. -/
theorem C8_unique_link_witness :
    (SampleResearchersCreateView.post 400 demoStore dupLinkReq =
      (demoStore, Except.error
        (ApiErr.validationErr "The fields sample, researcher must make a unique set")))
  ∧ (SampleResearchersCreateView.post 400 demoStore freshLinkReq =
      ({ demoStore with
         sample_researchers := demoStore.sample_researchers ++
           [{ id := demoStore.next_link_id, sample_id := 2, researcher_id := 1,
              role := none, assigned_at := 400 }],
         next_link_id := demoStore.next_link_id + 1 },
       Except.ok { id := demoStore.next_link_id, sample_id := 2, researcher_id := 1,
                   role := none, assigned_at := 400 }))
  ∧ pairsUnique (SampleResearchersCreateView.post 400 demoStore freshLinkReq).1
  ∧ pairsUnique (PlantSampleHardDeleteView.hardDelete 400 demoStore 1).1 := by
  refine ⟨?_, ?_, ?_, ?_⟩
  · exact C8_unique_link.1 400 demoStore dupLinkReq demoSample demoResearcher
      demoLink rfl rfl
      (by intro ro h; injection h with h2; rw [← h2]; decide) (by decide) rfl rfl
  · exact C8_unique_link.2.1 400 demoStore freshLinkReq demoDeletedSample
      demoResearcher rfl rfl (by intro ro h; cases h) (by decide)
  · exact C8_unique_link.2.2.1 400 demoStore freshLinkReq
      (by unfold pairsUnique; decide)
  · exact C8_unique_link.2.2.2 400 demoStore 1
      (by unfold pairsUnique; decide)

/-! C10: soft deletion does not block growth-metric writes or reads. -/

lemma mem_metrics_by_sample (st : Store) (sid : Nat) (m : GrowthMetrics) :
    m ∈ GrowthMetricsBySampleView.get st sid ↔
      m ∈ st.growth_metrics ∧ m.sample_id = sid := by
  unfold GrowthMetricsBySampleView.get
  rw [(List.perm_insertionSort newerMetric _).mem_iff]
  simp [List.mem_filter]

/-- Everything C10 asserts after a growth-metric creation for sample sid:
the created row is returned and appended, one GROWTH_METRICS_ADDED audit
entry is appended, and the per-sample listing returns exactly the stored
metrics of that sample. -/
def GrowthCreateOutcome (now : Nat) (st : Store) (sid : Nat) (r : GrowthReq) : Prop :=
  (GrowthMetricsCreateForSampleView.post now st sid r).2 =
    Except.ok { growth_id := st.next_growth_id, sample_id := sid,
                height := r.height, leaf_count := r.leaf_count,
                stem_diameter := r.stem_diameter, health_status := r.health_status,
                measured_at := now } ∧
  (GrowthMetricsCreateForSampleView.post now st sid r).1.growth_metrics =
    st.growth_metrics ++
      [{ growth_id := st.next_growth_id, sample_id := sid,
         height := r.height, leaf_count := r.leaf_count,
         stem_diameter := r.stem_diameter, health_status := r.health_status,
         measured_at := now }] ∧
  (∃ e : SampleAuditLog,
     (GrowthMetricsCreateForSampleView.post now st sid r).1.audit_log =
       st.audit_log ++ [e] ∧
     e.sample_id = sid ∧ e.action = "GROWTH_METRICS_ADDED") ∧
  (∀ m : GrowthMetrics,
     m ∈ GrowthMetricsBySampleView.get
           (GrowthMetricsCreateForSampleView.post now st sid r).1 sid ↔
       m ∈ (GrowthMetricsCreateForSampleView.post now st sid r).1.growth_metrics ∧
       m.sample_id = sid)

/-- C10: for any stored sample, soft-deleted or active (the hypotheses place
no constraint on is_deleted, because the view makes no deleted-state check),
a valid growth-metric creation succeeds, appends the metric and one
GROWTH_METRICS_ADDED audit entry, and the per-sample metric listing returns
that samples metrics in full. -/
theorem C10_growth_for_soft_deleted (now : Nat) (st : Store) (sid : Nat)
    (s : PlantSample) (r : GrowthReq)
    (hf : st.findSample sid = some s)
    (hval : GrowthMetricsSerializer.validate r = Except.ok ()) :
    GrowthCreateOutcome now st sid r := by
  have hmain : GrowthMetricsCreateForSampleView.post now st sid r =
      (applySteps
        [insertMetricStep
           { growth_id := st.next_growth_id, sample_id := sid,
             height := r.height, leaf_count := r.leaf_count,
             stem_diameter := r.stem_diameter, health_status := r.health_status,
             measured_at := now },
         insertAuditStep sid "GROWTH_METRICS_ADDED" now
           (AuditDetails.growthAddedD st.next_growth_id r.height r.leaf_count
             r.stem_diameter r.health_status)] st,
       Except.ok { growth_id := st.next_growth_id, sample_id := sid,
                   height := r.height, leaf_count := r.leaf_count,
                   stem_diameter := r.stem_diameter,
                   health_status := r.health_status, measured_at := now }) := by
    unfold GrowthMetricsCreateForSampleView.post GrowthMetricsCreateForSampleView.postI
    simp only [hf, hval, GrowthMetrics.clean, runAtomic_noFail]
  unfold GrowthCreateOutcome
  rw [hmain]
  exact ⟨rfl, rfl, ⟨_, rfl, rfl, rfl⟩, fun m => mem_metrics_by_sample _ sid m⟩

def demoGrowthReq : GrowthReq :=
  { height := some 10, leaf_count := some 5, stem_diameter := some 2,
    health_status := some "good" }

/-- Witness for C10 on the soft-deleted sample 2 of demoStore. -/
theorem C10_growth_for_soft_deleted_witness :
    GrowthCreateOutcome 500 demoStore 2 demoGrowthReq :=
  C10_growth_for_soft_deleted 500 demoStore 2 demoDeletedSample demoGrowthReq
    rfl (by decide)

/-! C9: inclusive range and enum validation with exact decimal comparison. -/

/-- C9: with all required keys present, location and condition payloads whose
numeric fields lie inside the documented inclusive ranges and whose
enumerated fields come from the fixed sets pass clean; pushing any single
numeric field outside its range, or supplying an unknown enum value, makes
clean reject with the message naming that field.  Numbers are exact
rationals, mirroring the Decimal comparisons of the source. -/
theorem C9_validation_ranges :
    (∀ (la lo : ℚ) (stp : Option String),
       -90 ≤ la → la ≤ 90 → -180 ≤ lo → lo ≤ 180 →
       (∀ t, stp = some t → t ∈ SITE_TYPE_CHOICES) →
       SamplingLocation.clean
         { coordinates := DictField.dict
             { latitude := some (NumVal.val la), longitude := some (NumVal.val lo) },
           region := true, country := true, site_type := stp } = Except.ok ())
  ∧ (∀ (la lo : ℚ) (stp : Option String), ¬(-90 ≤ la ∧ la ≤ 90) →
       SamplingLocation.clean
         { coordinates := DictField.dict
             { latitude := some (NumVal.val la), longitude := some (NumVal.val lo) },
           region := true, country := true, site_type := stp } =
         Except.error "Latitude must be between -90 and 90")
  ∧ (∀ (la lo : ℚ) (stp : Option String),
       -90 ≤ la → la ≤ 90 → ¬(-180 ≤ lo ∧ lo ≤ 180) →
       SamplingLocation.clean
         { coordinates := DictField.dict
             { latitude := some (NumVal.val la), longitude := some (NumVal.val lo) },
           region := true, country := true, site_type := stp } =
         Except.error "Longitude must be between -180 and 180")
  ∧ (∀ (la lo : ℚ) (t : String),
       -90 ≤ la → la ≤ 90 → -180 ≤ lo → lo ≤ 180 → t ∉ SITE_TYPE_CHOICES →
       SamplingLocation.clean
         { coordinates := DictField.dict
             { latitude := some (NumVal.val la), longitude := some (NumVal.val lo) },
           region := true, country := true, site_type := some t } =
         Except.error "Invalid site_type")
  ∧ (∀ (ph temp hum alt : ℚ) (sty : String),
       0 ≤ ph → ph ≤ 14 → -50 ≤ temp → temp ≤ 60 → 0 ≤ hum → hum ≤ 100 →
       -500 ≤ alt → alt ≤ 9000 → sty ∈ SOIL_TYPE_CHOICES →
       EnvironmentalConditions.clean
         { soil_composition := DictField.dict
             { pH := some (NumVal.val ph), nutrients := true, soilType := some sty },
           temperature := some (NumVal.val temp), humidity := some (NumVal.val hum),
           altitude := some (NumVal.val alt) } = Except.ok ())
  ∧ (∀ (ph temp hum alt : ℚ) (sty : String), ¬(0 ≤ ph ∧ ph ≤ 14) →
       EnvironmentalConditions.clean
         { soil_composition := DictField.dict
             { pH := some (NumVal.val ph), nutrients := true, soilType := some sty },
           temperature := some (NumVal.val temp), humidity := some (NumVal.val hum),
           altitude := some (NumVal.val alt) } =
         Except.error "pH must be between 0 and 14")
  ∧ (∀ (ph temp hum alt : ℚ) (sty : String),
       0 ≤ ph → ph ≤ 14 → ¬(-50 ≤ temp ∧ temp ≤ 60) →
       EnvironmentalConditions.clean
         { soil_composition := DictField.dict
             { pH := some (NumVal.val ph), nutrients := true, soilType := some sty },
           temperature := some (NumVal.val temp), humidity := some (NumVal.val hum),
           altitude := some (NumVal.val alt) } =
         Except.error "Temperature must be between -50 and 60 C")
  ∧ (∀ (ph temp hum alt : ℚ) (sty : String),
       0 ≤ ph → ph ≤ 14 → -50 ≤ temp → temp ≤ 60 → ¬(0 ≤ hum ∧ hum ≤ 100) →
       EnvironmentalConditions.clean
         { soil_composition := DictField.dict
             { pH := some (NumVal.val ph), nutrients := true, soilType := some sty },
           temperature := some (NumVal.val temp), humidity := some (NumVal.val hum),
           altitude := some (NumVal.val alt) } =
         Except.error "Humidity must be between 0 and 100 percent")
  ∧ (∀ (ph temp hum alt : ℚ) (sty : String),
       0 ≤ ph → ph ≤ 14 → -50 ≤ temp → temp ≤ 60 → 0 ≤ hum → hum ≤ 100 →
       ¬(-500 ≤ alt ∧ alt ≤ 9000) →
       EnvironmentalConditions.clean
         { soil_composition := DictField.dict
             { pH := some (NumVal.val ph), nutrients := true, soilType := some sty },
           temperature := some (NumVal.val temp), humidity := some (NumVal.val hum),
           altitude := some (NumVal.val alt) } =
         Except.error "Altitude must be between -500 and 9000 meters")
  ∧ (∀ (ph temp hum alt : ℚ) (sty : String),
       0 ≤ ph → ph ≤ 14 → -50 ≤ temp → temp ≤ 60 → 0 ≤ hum → hum ≤ 100 →
       -500 ≤ alt → alt ≤ 9000 → sty ∉ SOIL_TYPE_CHOICES →
       EnvironmentalConditions.clean
         { soil_composition := DictField.dict
             { pH := some (NumVal.val ph), nutrients := true, soilType := some sty },
           temperature := some (NumVal.val temp), humidity := some (NumVal.val hum),
           altitude := some (NumVal.val alt) } =
         Except.error "Invalid soil type") := by
  refine ⟨?_, ?_, ?_, ?_, ?_, ?_, ?_, ?_, ?_, ?_⟩
  · intro la lo stp h1 h2 h3 h4 hstp
    cases stp with
    | none => simp [SamplingLocation.clean, h1, h2, h3, h4]
    | some t =>
      have hmem : t ∈ SITE_TYPE_CHOICES := hstp t rfl
      simp [SamplingLocation.clean, h1, h2, h3, h4, hmem]
  · intro la lo stp hlat
    simp [SamplingLocation.clean, hlat]
  · intro la lo stp h1 h2 hlon
    simp [SamplingLocation.clean, h1, h2, hlon]
  · intro la lo t h1 h2 h3 h4 hnot
    simp [SamplingLocation.clean, h1, h2, h3, h4, hnot]
  · intro ph temp hum alt sty h1 h2 h3 h4 h5 h6 h7 h8 hmem
    simp [EnvironmentalConditions.clean, h1, h2, h3, h4, h5, h6, h7, h8, hmem]
  · intro ph temp hum alt sty hph
    simp [EnvironmentalConditions.clean, hph]
  · intro ph temp hum alt sty h1 h2 htemp
    simp [EnvironmentalConditions.clean, h1, h2, htemp]
  · intro ph temp hum alt sty h1 h2 h3 h4 hhum
    simp [EnvironmentalConditions.clean, h1, h2, h3, h4, hhum]
  · intro ph temp hum alt sty h1 h2 h3 h4 h5 h6 halt
    simp [EnvironmentalConditions.clean, h1, h2, h3, h4, h5, h6, halt]
  · intro ph temp hum alt sty h1 h2 h3 h4 h5 h6 h7 h8 hnot
    simp [EnvironmentalConditions.clean, h1, h2, h3, h4, h5, h6, h7, h8, hnot]

/-- Witness for C9_validation_ranges at the documented boundaries and one
unit outside them: latitude plus-minus 90 and longitude plus-minus 180
accepted, pH exactly 0 and exactly 14 accepted, latitude 91, longitude
minus 181, pH 15, temperature 61, humidity 101 and altitude 9001 rejected
with the message naming the field, and the unknown enum values tundra and
silt rejected. -/
theorem C9_validation_ranges_witness :
    (SamplingLocation.clean
       { coordinates := DictField.dict
           { latitude := some (NumVal.val 90), longitude := some (NumVal.val (-180)) },
         region := true, country := true, site_type := some "forest" } = Except.ok ())
  ∧ (SamplingLocation.clean
       { coordinates := DictField.dict
           { latitude := some (NumVal.val (-90)), longitude := some (NumVal.val 180) },
         region := true, country := true, site_type := none } = Except.ok ())
  ∧ (SamplingLocation.clean
       { coordinates := DictField.dict
           { latitude := some (NumVal.val 91), longitude := some (NumVal.val 0) },
         region := true, country := true, site_type := none } =
       Except.error "Latitude must be between -90 and 90")
  ∧ (SamplingLocation.clean
       { coordinates := DictField.dict
           { latitude := some (NumVal.val 0), longitude := some (NumVal.val (-181)) },
         region := true, country := true, site_type := none } =
       Except.error "Longitude must be between -180 and 180")
  ∧ (SamplingLocation.clean
       { coordinates := DictField.dict
           { latitude := some (NumVal.val 0), longitude := some (NumVal.val 0) },
         region := true, country := true, site_type := some "tundra" } =
       Except.error "Invalid site_type")
  ∧ (EnvironmentalConditions.clean
       { soil_composition := DictField.dict
           { pH := some (NumVal.val 0), nutrients := true, soilType := some "clay" },
         temperature := some (NumVal.val (-50)), humidity := some (NumVal.val 0),
         altitude := some (NumVal.val (-500)) } = Except.ok ())
  ∧ (EnvironmentalConditions.clean
       { soil_composition := DictField.dict
           { pH := some (NumVal.val 14), nutrients := true, soilType := some "saline" },
         temperature := some (NumVal.val 60), humidity := some (NumVal.val 100),
         altitude := some (NumVal.val 9000) } = Except.ok ())
  ∧ (EnvironmentalConditions.clean
       { soil_composition := DictField.dict
           { pH := some (NumVal.val 15), nutrients := true, soilType := some "clay" },
         temperature := some (NumVal.val 20), humidity := some (NumVal.val 50),
         altitude := some (NumVal.val 100) } =
       Except.error "pH must be between 0 and 14")
  ∧ (EnvironmentalConditions.clean
       { soil_composition := DictField.dict
           { pH := some (NumVal.val 7), nutrients := true, soilType := some "clay" },
         temperature := some (NumVal.val 61), humidity := some (NumVal.val 50),
         altitude := some (NumVal.val 100) } =
       Except.error "Temperature must be between -50 and 60 C")
  ∧ (EnvironmentalConditions.clean
       { soil_composition := DictField.dict
           { pH := some (NumVal.val 7), nutrients := true, soilType := some "clay" },
         temperature := some (NumVal.val 20), humidity := some (NumVal.val 101),
         altitude := some (NumVal.val 100) } =
       Except.error "Humidity must be between 0 and 100 percent")
  ∧ (EnvironmentalConditions.clean
       { soil_composition := DictField.dict
           { pH := some (NumVal.val 7), nutrients := true, soilType := some "clay" },
         temperature := some (NumVal.val 20), humidity := some (NumVal.val 50),
         altitude := some (NumVal.val 9001) } =
       Except.error "Altitude must be between -500 and 9000 meters")
  ∧ (EnvironmentalConditions.clean
       { soil_composition := DictField.dict
           { pH := some (NumVal.val 7), nutrients := true, soilType := some "silt" },
         temperature := some (NumVal.val 20), humidity := some (NumVal.val 50),
         altitude := some (NumVal.val 100) } =
       Except.error "Invalid soil type") := by
  refine ⟨?_, ?_, ?_, ?_, ?_, ?_, ?_, ?_, ?_, ?_, ?_, ?_⟩
  · exact C9_validation_ranges.1 90 (-180) (some "forest") (by decide) (by decide)
      (by decide) (by decide) (by intro t h; injection h with h2; rw [← h2]; decide)
  · exact C9_validation_ranges.1 (-90) 180 none (by decide) (by decide)
      (by decide) (by decide) (by intro t h; cases h)
  · exact C9_validation_ranges.2.1 91 0 none (by decide)
  · exact C9_validation_ranges.2.2.1 0 (-181) none (by decide) (by decide) (by decide)
  · exact C9_validation_ranges.2.2.2.1 0 0 "tundra" (by decide) (by decide)
      (by decide) (by decide) (by decide)
  · exact C9_validation_ranges.2.2.2.2.1 0 (-50) 0 (-500) "clay" (by decide)
      (by decide) (by decide) (by decide) (by decide) (by decide) (by decide)
      (by decide) (by decide)
  · exact C9_validation_ranges.2.2.2.2.1 14 60 100 9000 "saline" (by decide)
      (by decide) (by decide) (by decide) (by decide) (by decide) (by decide)
      (by decide) (by decide)
  · exact C9_validation_ranges.2.2.2.2.2.1 15 20 50 100 "clay" (by decide)
  · exact C9_validation_ranges.2.2.2.2.2.2.1 7 61 50 100 "clay" (by decide)
      (by decide) (by decide)
  · exact C9_validation_ranges.2.2.2.2.2.2.2.1 7 20 101 100 "clay" (by decide)
      (by decide) (by decide) (by decide) (by decide)
  · exact C9_validation_ranges.2.2.2.2.2.2.2.2.1 7 20 50 9001 "clay" (by decide)
      (by decide) (by decide) (by decide) (by decide) (by decide) (by decide)
  · exact C9_validation_ranges.2.2.2.2.2.2.2.2.2 7 20 50 100 "silt" (by decide)
      (by decide) (by decide) (by decide) (by decide) (by decide) (by decide)
      (by decide) (by decide)

/-! C5: every multi-step write is all-or-nothing. -/

/-- C5: for every failure oracle, each multi-step write either leaves the
store exactly as before (every validation failure and every mid-transaction
write failure rolls back in full) or applies its complete effect: create
appends exactly one sample and its CREATED audit entry together, update
appends one UPDATED entry while keeping the sample count, soft delete
appends one DELETED entry together with the flagged sample row, and hard
delete appends one HARD_DELETED entry together with the removal of the
sample, its growth metrics and its researcher links.  No audit entry is ever
recorded without its paired data change, and no data change without its
entry. -/
theorem C5_atomicity (oracle : Nat → Bool) (today now : Nat) (st : Store)
    (r : CreateReq) (sidp sidd sidh : Nat) (p : PatchReq) :
    ((PlantSampleCreateView.postI oracle today now st r).1 = st ∨
      ∃ (s : PlantSample) (e : SampleAuditLog),
        (PlantSampleCreateView.postI oracle today now st r).1.samples =
          st.samples ++ [s] ∧
        (PlantSampleCreateView.postI oracle today now st r).1.audit_log =
          st.audit_log ++ [e] ∧
        e.action = "CREATED" ∧ e.sample_id = s.sample_id)
  ∧ ((PlantSampleUpdateView.patchI oracle today now st sidp p).1 = st ∨
      ∃ e : SampleAuditLog,
        (PlantSampleUpdateView.patchI oracle today now st sidp p).1.audit_log =
          st.audit_log ++ [e] ∧
        e.action = "UPDATED" ∧ e.sample_id = sidp ∧
        (PlantSampleUpdateView.patchI oracle today now st sidp p).1.samples.length =
          st.samples.length)
  ∧ ((PlantSampleDetailView.deleteI oracle today now st sidd).1 = st ∨
      ∃ (e : SampleAuditLog) (s' : PlantSample),
        (PlantSampleDetailView.deleteI oracle today now st sidd).1.audit_log =
          st.audit_log ++ [e] ∧
        e.action = "DELETED" ∧ e.sample_id = sidd ∧
        (PlantSampleDetailView.deleteI oracle today now st sidd).1.findSample sidd =
          some s' ∧ s'.is_deleted = true)
  ∧ ((PlantSampleHardDeleteView.deleteI oracle now st sidh).1 = st ∨
      ∃ e : SampleAuditLog,
        (PlantSampleHardDeleteView.deleteI oracle now st sidh).1.audit_log =
          st.audit_log ++ [e] ∧
        e.action = "HARD_DELETED" ∧ e.sample_id = sidh ∧
        (∀ m ∈ (PlantSampleHardDeleteView.deleteI oracle now st sidh).1.growth_metrics,
           m.sample_id ≠ sidh) ∧
        (∀ l ∈ (PlantSampleHardDeleteView.deleteI oracle now st sidh).1.sample_researchers,
           l.sample_id ≠ sidh) ∧
        (PlantSampleHardDeleteView.deleteI oracle now st sidh).1.findSample sidh =
          none) := by
  refine ⟨?_, ?_, ?_, ?_⟩
  · unfold PlantSampleCreateView.postI
    cases hv : validateCreateReq st r with
    | error m => left; rfl
    | ok u =>
      cases u
      cases hs : PlantSample.save today r.sample_detail with
      | error m => left; rfl
      | ok detail =>
        cases h0 : oracle 0 with
        | true => left; simp [runAtomic, runAtomicAux, h0]
        | false =>
          cases h1 : oracle 1 with
          | true => left; simp [runAtomic, runAtomicAux, h0, h1]
          | false =>
            right
            simp only [runAtomic, runAtomicAux, h0, h1, Bool.false_eq_true,
              if_false]
            exact ⟨_, _, rfl, rfl, rfl, rfl⟩
  · unfold PlantSampleUpdateView.patchI
    cases hf : st.findSample sidp with
    | none => left; rfl
    | some s =>
      by_cases hd : s.is_deleted = true
      · left; simp [hd]
      simp only [hd, Bool.false_eq_true, if_false]
      cases hvd : validatePatchDetail p with
      | error m => left; rfl
      | ok u =>
        cases u
        cases hvf : validatePatchFks st p with
        | error m => left; rfl
        | ok u =>
          cases u
          cases hs : PlantSample.save today (p.sample_detail.getD s.sample_detail) with
          | error m => left; rfl
          | ok detail =>
            cases h0 : oracle 0 with
            | true => left; simp [runAtomic, runAtomicAux, h0]
            | false =>
              cases h1 : oracle 1 with
              | true => left; simp [runAtomic, runAtomicAux, h0, h1]
              | false =>
                right
                simp only [runAtomic, runAtomicAux, h0, h1, Bool.false_eq_true,
                  if_false]
                refine ⟨_, rfl, rfl, rfl, ?_⟩
                simp [updateSampleStep, insertAuditStep]
  · unfold PlantSampleDetailView.deleteI
    cases hf : st.findSample sidd with
    | none => left; rfl
    | some s =>
      by_cases hd : s.is_deleted = true
      · left; simp [hd]
      simp only [hd, Bool.false_eq_true, if_false]
      cases hs : PlantSample.save today s.sample_detail with
      | error m => left; rfl
      | ok detail =>
        cases h0 : oracle 0 with
        | true => left; simp [runAtomic, runAtomicAux, h0]
        | false =>
          cases h1 : oracle 1 with
          | true => left; simp [runAtomic, runAtomicAux, h0, h1]
          | false =>
            right
            simp only [runAtomic, runAtomicAux, h0, h1, Bool.false_eq_true,
              if_false]
            have hf' : st.samples.find? (fun x => x.sample_id == sidd) = some s := hf
            have hs_id : s.sample_id = sidd := by
              simpa using List.find?_some hf'
            refine ⟨_, { s with
                         sample_detail := detail, is_deleted := true,
                         deleted_at := some now, updated_at := now },
              rfl, rfl, rfl, ?_, rfl⟩
            exact find?_map_replace st.samples sidd s _ hf' (by simp [hs_id])
  · unfold PlantSampleHardDeleteView.deleteI
    cases hf : st.findSample sidh with
    | none => left; rfl
    | some s =>
      cases h0 : oracle 0 with
      | true => left; simp [runAtomic, runAtomicAux, hardDeleteSteps, h0]
      | false =>
        cases h1 : oracle 1 with
        | true => left; simp [runAtomic, runAtomicAux, hardDeleteSteps, h0, h1]
        | false =>
          cases h2 : oracle 2 with
          | true => left; simp [runAtomic, runAtomicAux, hardDeleteSteps, h0, h1, h2]
          | false =>
            cases h3 : oracle 3 with
            | true =>
              left; simp [runAtomic, runAtomicAux, hardDeleteSteps, h0, h1, h2, h3]
            | false =>
              right
              simp only [runAtomic, runAtomicAux, hardDeleteSteps, h0, h1, h2, h3,
                Bool.false_eq_true, if_false]
              refine ⟨_, rfl, rfl, rfl, ?_, ?_, ?_⟩
              · intro m hm
                have := (List.mem_filter.mp hm).2
                simpa using this
              · intro l hl
                have := (List.mem_filter.mp hl).2
                simpa using this
              · exact find?_filter_ne _ sidh
